import Mathlib

/-!
Shallow embedding of the `sync_engine` crate of the carla-loader repository
(`src/crates/sync_engine/src/{buffer,adakf,window,engine}.rs` together with the
configuration and frame contracts of `src/crates/contracts/src`).

Modelling conventions:
* Rust `f64` values are modelled as real numbers (`ℝ`); the floating-point
  representation itself is not modelled, and `f64::is_finite` checks are
  dropped because `ℝ` has no non-finite values.
* The ring-buffer index / payload-slab split of `SensorBuffer` is collapsed
  into a single list of packets kept in ring (insertion) order; the index
  metadata timestamp always equals the stored packet's timestamp.
* `HashMap` values built per emitted frame are modelled as association lists
  in the insertion order the Rust code produces.
* Logging, tracing and the `metrics` crate calls have no effect on the
  synchronisation state and are elided; the single state effect of
  `record_frame_metrics` (setting `last_sync_time`) is kept.
-/

noncomputable section
open scoped Classical

/-- Rust `f64::clamp(lo, hi)` (callers always satisfy `lo ≤ hi`). -/
def fclamp (x lo hi : ℝ) : ℝ := min (max x lo) hi

/-- `contracts::SensorType`. -/
inductive SensorType where
  | camera
  | lidar
  | imu
  | gnss
  | radar
deriving DecidableEq, Repr

/-- `contracts::Vector3` (named `Vec3` here: `Vector3` is taken by Mathlib). -/
structure Vec3 where
  x : ℝ
  y : ℝ
  z : ℝ

/-- `contracts::ImuData`. -/
structure ImuData where
  accelerometer : Vec3
  gyroscope : Vec3
  compass : ℝ

/-- `contracts::SensorPayload`; payload byte contents are irrelevant to the
sync logic, so the non-IMU variants carry no data. -/
inductive SensorPayload where
  | image
  | pointCloud
  | imuData (d : ImuData)
  | gnssData
  | radarData
  | raw


/-- `contracts::SensorPacket` (sensor ids are plain strings here). -/
structure SensorPacket where
  sensor_id : String
  sensor_type : SensorType
  timestamp : ℝ
  frame_id : Option ℕ
  payload : SensorPayload

/-- `contracts::WindowConfig`. -/
structure WindowConfig where
  min_ms : ℝ
  max_ms : ℝ

/-- `contracts::BufferConfig`. -/
structure BufferConfig where
  max_size : ℕ
  timeout_s : ℝ

/-- `contracts::AdaKFConfig`. -/
structure AdaKFConfig where
  initial_offset : ℝ
  process_noise : ℝ
  measurement_noise : ℝ
  residual_window : ℕ
  expected_interval : Option ℝ

/-- `contracts::MissingDataStrategy`. -/
inductive MissingDataStrategy where
  | drop
  | empty
  | interpolate
deriving DecidableEq

/-- `contracts::SyncEngineConfig` (`sensor_intervals` as an association list). -/
structure SyncEngineConfig where
  reference_sensor_id : String
  required_sensors : List String
  imu_sensor_id : Option String
  window : WindowConfig
  buffer : BufferConfig
  adakf : AdaKFConfig
  missing_strategy : MissingDataStrategy
  sensor_intervals : List (String × ℝ)

/-- `contracts::SyncMeta`. -/
structure SyncMeta where
  reference_sensor_id : String
  window_size : ℝ
  motion_intensity : Option ℝ
  time_offsets : List (String × ℝ)
  kf_residuals : List (String × ℝ)
  missing_sensors : List String
  dropped_count : ℕ
  out_of_order_count : ℕ

/-- `contracts::SyncedFrame`. -/
structure SyncedFrame where
  t_sync : ℝ
  frame_id : ℕ
  frames : List (String × SensorPacket)
  sync_meta : SyncMeta

/-! ## Sensor buffer (`buffer.rs`) -/

/-- `sync_engine::buffer::SensorBuffer`; `items` is the ring-buffer content in
insertion order (index metadata and payload slab collapsed into one list). -/
structure SensorBuffer where
  items : List SensorPacket
  max_size : ℕ
  dropped_count : ℕ
  out_of_order_count : ℕ
  last_timestamp : Option ℝ

namespace SensorBuffer

/-- `SensorBuffer::new` (the `_timeout_s` argument is ignored by the source). -/
def new (max_size : ℕ) (_timeout_s : ℝ) : SensorBuffer :=
  { items := []
    max_size := max_size
    dropped_count := 0
    out_of_order_count := 0
    last_timestamp := none }

/-- `SensorBuffer::push`: track out-of-order arrivals, evict the ring-buffer
head (earliest inserted packet) when full, then append the new packet when the
ring has room. -/
def push (b : SensorBuffer) (p : SensorPacket) : SensorBuffer :=
  let ooo : ℕ :=
    match b.last_timestamp with
    | some last => if p.timestamp < last then b.out_of_order_count + 1 else b.out_of_order_count
    | none => b.out_of_order_count
  let full : Prop := b.max_size ≤ b.items.length
  let items1 : List SensorPacket := if full then b.items.tail else b.items
  let dropped1 : ℕ := if full then b.dropped_count + 1 else b.dropped_count
  let items2 : List SensorPacket := if items1.length < b.max_size then items1 ++ [p] else items1
  { b with
      items := items2
      dropped_count := dropped1
      out_of_order_count := ooo
      last_timestamp := some p.timestamp }

/-- First element minimising the timestamp (Rust `Iterator::min_by` keeps the
first of equally minimal elements). -/
def minByTs : List SensorPacket → Option SensorPacket
  | [] => none
  | p :: ps => some (ps.foldl (fun acc q => if q.timestamp < acc.timestamp then q else acc) p)

/-- `SensorBuffer::peek`: earliest packet by timestamp, insertion order breaking ties. -/
def peek (b : SensorBuffer) : Option SensorPacket := minByTs b.items

/-- Length accessor (`SensorBuffer::len`). -/
def len (b : SensorBuffer) : ℕ := b.items.length

/-- `SensorBuffer::is_empty`. -/
def isEmpty (b : SensorBuffer) : Prop := b.items = []

/-- Packets within `[target - window/2, target + window/2]`, in insertion order. -/
def eligibleInWindow (target half : ℝ) : List SensorPacket → List SensorPacket
  | [] => []
  | p :: ps =>
    if target - half ≤ p.timestamp ∧ p.timestamp ≤ target + half then
      p :: eligibleInWindow target half ps
    else
      eligibleInWindow target half ps

/-- First element minimising `|timestamp − target|`. -/
def minByDist (target : ℝ) : List SensorPacket → Option SensorPacket
  | [] => none
  | p :: ps =>
    some (ps.foldl
      (fun acc q => if |q.timestamp - target| < |acc.timestamp - target| then q else acc) p)

/-- `SensorBuffer::find_closest_in_window`. -/
def find_closest_in_window (b : SensorBuffer) (target window : ℝ) : Option SensorPacket :=
  minByDist target (eligibleInWindow target (window / 2) b.items)

/-- Packets with timestamp strictly greater than `t`, in insertion order. -/
def keepAfter (t : ℝ) : List SensorPacket → List SensorPacket
  | [] => []
  | p :: ps => if t < p.timestamp then p :: keepAfter t ps else keepAfter t ps

/-- `SensorBuffer::remove_consumed`: drop every packet with timestamp `≤ t`;
the drop / out-of-order counters and `last_timestamp` are not touched. -/
def remove_consumed (b : SensorBuffer) (up_to_timestamp : ℝ) : SensorBuffer :=
  { b with items := keepAfter up_to_timestamp b.items }

/-- Packets with timestamp `≥ cutoff`, in insertion order. -/
def keepFrom (cutoff : ℝ) : List SensorPacket → List SensorPacket
  | [] => []
  | p :: ps => if cutoff ≤ p.timestamp then p :: keepFrom cutoff ps else keepFrom cutoff ps

/-- `SensorBuffer::evict_expired`: drop packets older than `now - timeout_s`
and add the evicted count to `dropped_count`. -/
def evict_expired (b : SensorBuffer) (now timeout_s : ℝ) : SensorBuffer × ℕ :=
  let kept := keepFrom (now - timeout_s) b.items
  let evicted := b.items.length - kept.length
  ({ b with items := kept, dropped_count := b.dropped_count + evicted }, evicted)

end SensorBuffer

/-! ## Window controller (`window.rs`) -/

/-- `window::compute_motion_intensity`. -/
def compute_motion_intensity (imu : ImuData) : ℝ :=
  let linear_mag :=
    Real.sqrt (imu.accelerometer.x ^ 2 + imu.accelerometer.y ^ 2 + imu.accelerometer.z ^ 2)
  let angular_mag :=
    Real.sqrt (imu.gyroscope.x ^ 2 + imu.gyroscope.y ^ 2 + imu.gyroscope.z ^ 2)
  let linear_normalized := fclamp (|linear_mag - 9.8| / 5.0) 0 1
  let angular_normalized := fclamp (angular_mag / 1.0) 0 1
  fclamp ((linear_normalized + angular_normalized) / 2) 0 1

/-- `window::fuse_motion_pressure`. -/
def fuse_motion_pressure (imu_intensity buffer_pressure : ℝ) : ℝ :=
  let imu := fclamp imu_intensity 0 1
  let pressure := fclamp buffer_pressure 0 1
  fclamp (imu * 0.7 + pressure * 0.3) 0 1

/-- `window::compute_window_size` (milliseconds interpolation, then seconds). -/
def compute_window_size (intensity : ℝ) (config : WindowConfig) : ℝ :=
  let range := config.max_ms - config.min_ms
  let window_ms := config.max_ms - intensity * range
  window_ms / 1000

/-! ## Adaptive Kalman filter (`adakf.rs`) -/

/-- `adakf::MIN_DT`. -/
def MIN_DT : ℝ := 1e-3

/-- `adakf::DEFAULT_ALPHA`. -/
def DEFAULT_ALPHA : ℝ := 0.85

/-- `sync_engine::adakf::AdaKF`; the 2-vector state and the 2×2 covariance
matrix are stored as individual fields. -/
structure AdaKF where
  state0 : ℝ
  state1 : ℝ
  cov00 : ℝ
  cov01 : ℝ
  cov10 : ℝ
  cov11 : ℝ
  base_q_offset : ℝ
  base_q_drift : ℝ
  base_r : ℝ
  r : ℝ
  ewma_variance : ℝ
  residual_window : List ℝ
  window_size : ℕ
  alpha : ℝ
  expected_interval : ℝ

namespace AdaKF

/-- `AdaKF::new`. -/
def new (config : AdaKFConfig) : AdaKF :=
  let window_size := max config.residual_window 3
  let base_q_offset := max config.process_noise 1e-9
  let base_q_drift := max (config.process_noise * 0.1) 1e-9
  let base_r := max config.measurement_noise 1e-9
  let expected_interval := max (config.expected_interval.getD 0.05) MIN_DT
  { state0 := config.initial_offset
    state1 := 0
    cov00 := 1
    cov01 := 0
    cov10 := 0
    cov11 := 1
    base_q_offset := base_q_offset
    base_q_drift := base_q_drift
    base_r := base_r
    r := base_r
    ewma_variance := base_r
    residual_window := []
    window_size := window_size
    alpha := DEFAULT_ALPHA
    expected_interval := expected_interval }

/-- `AdaKF::update`; returns the updated filter together with the pair
`(state[0], residual)` the Rust function returns. The `dt.is_finite()` check
is dropped (`ℝ` has no non-finite values). -/
def update (kf : AdaKF) (observation dt load_index : ℝ) : AdaKF × ℝ × ℝ :=
  let dt := max (if 0 < dt then dt else kf.expected_interval) MIN_DT
  let offset_pred := kf.state0 + dt * kf.state1
  let drift_pred := kf.state1
  let scale := 1 + fclamp load_index 0 1
  let q_offset := kf.base_q_offset * scale
  let q_drift := kf.base_q_drift * scale
  let p00 := kf.cov00
  let p01 := kf.cov01
  let p11 := kf.cov11
  let pred00 := p00 + 2 * dt * p01 + dt * dt * p11 + q_offset
  let pred01 := p01 + dt * p11
  let pred11 := p11 + q_drift
  let residual := observation - offset_pred
  let s := pred00 + kf.r
  let k0 := pred00 / s
  let k1 := pred01 / s
  let new_offset := offset_pred + k0 * residual
  let new_drift := drift_pred + k1 * residual
  let new_p00 := (1 - k0) * pred00
  let new_p01 := (1 - k0) * pred01
  let new_p11 := pred11 - k1 * pred01
  let rw0 := kf.residual_window ++ [residual]
  let rw := if kf.window_size < rw0.length then rw0.tail else rw0
  let ewma := kf.alpha * kf.ewma_variance + (1 - kf.alpha) * residual ^ 2
  let r_min := kf.base_r * 0.1
  let r_max := kf.base_r * 10
  let kf' : AdaKF :=
    { kf with
        state0 := new_offset
        state1 := new_drift
        cov00 := max new_p00 0
        cov01 := new_p01
        cov10 := new_p01
        cov11 := max new_p11 0
        ewma_variance := ewma
        r := fclamp ewma r_min r_max
        residual_window := rw }
  (kf', new_offset, residual)

/-- `AdaKF::offset`. -/
def offset (kf : AdaKF) : ℝ := kf.state0

end AdaKF

/-! ## Sync engine (`engine.rs`) -/

/-- `engine::DEFAULT_SENSOR_INTERVAL`. -/
def DEFAULT_SENSOR_INTERVAL : ℝ := 0.05

/-- `engine::MIN_WINDOW_FLOOR_S`. -/
def MIN_WINDOW_FLOOR_S : ℝ := 0.005

/-- `engine::SyncState`. -/
inductive SyncState where
  | idle
  | buffering
  | ready
deriving DecidableEq

/-- `engine::SelectedSensor`. -/
structure SelectedSensor where
  sensor_id : String
  packet : SensorPacket
  time_offset : ℝ
  kf_residual : ℝ
  quality_score : ℝ

/-- `engine::FrameSelection`. -/
structure FrameSelection where
  selected : List SelectedSensor
  missing_sensors : List String

/-- `engine::SyncContext`. -/
structure SyncContext where
  reference_time : ℝ
  window : ℝ
  fused_intensity : ℝ
  min_window_s : ℝ

/-- `engine::SensorState`. -/
structure SensorState where
  id : String
  buffer : SensorBuffer
  estimator : AdaKF
  last_update_time : ℝ
  last_emit_time : ℝ
  expected_interval : ℝ

/-- `SensorState::new`. -/
def SensorState.new (id : String) (buffer_size : ℕ) (timeout_s : ℝ)
    (adakf_config : AdaKFConfig) (expected_interval : ℝ) : SensorState :=
  let kf_config := { adakf_config with expected_interval := some expected_interval }
  { id := id
    buffer := SensorBuffer.new buffer_size timeout_s
    estimator := AdaKF.new kf_config
    last_update_time := 0
    last_emit_time := 0
    expected_interval := expected_interval }

/-- `engine::SyncEngine`. -/
structure SyncEngine where
  config : SyncEngineConfig
  sensors : List SensorState
  reference_idx : ℕ
  state : SyncState
  frame_counter : ℕ
  latest_imu : Option ImuData
  motion_intensity : ℝ
  last_sync_time : Option ℝ
  quality_multiplier : ℝ
  accept_rate : ℝ

/-- First-match lookup in an association list (`HashMap::get`). -/
def lookupInterval : List (String × ℝ) → String → Option ℝ
  | [], _ => none
  | (k, v) :: rest, sid => if k = sid then some v else lookupInterval rest sid

/-- The `reference_idx` accumulation of the `SyncEngine::new` loop: index of the
last occurrence of `x`, defaulting to the initial accumulator. -/
def refIdxLoop (x : String) : List String → ℕ → ℕ → ℕ
  | [], _, acc => acc
  | s :: rest, i, acc => refIdxLoop x rest (i + 1) (if s = x then i else acc)

/-- Positional access into the sensor list (`self.sensors[idx]` / `.get(idx)`). -/
def getSensor : List SensorState → ℕ → Option SensorState
  | [], _ => none
  | s :: _, 0 => some s
  | _ :: rest, n + 1 => getSensor rest n

/-- Positional update of the sensor list (mutation of `self.sensors[idx]`). -/
def setSensor : List SensorState → ℕ → SensorState → List SensorState
  | [], _, _ => []
  | _ :: rest, 0, s => s :: rest
  | x :: rest, n + 1, s => x :: setSensor rest n s

/-- `SyncEngine::find_sensor`: first index whose id matches. -/
def findSensorIdx : List SensorState → String → Option ℕ
  | [], _ => none
  | s :: rest, sid => if s.id = sid then some 0 else (findSensorIdx rest sid).map (· + 1)

namespace SyncEngine

/-- `SyncEngine::new`. -/
def new (config : SyncEngineConfig) : SyncEngine :=
  let base := config.required_sensors.map (fun sid =>
    SensorState.new sid config.buffer.max_size config.buffer.timeout_s config.adakf
      ((lookupInterval config.sensor_intervals sid).getD DEFAULT_SENSOR_INTERVAL))
  let sensors :=
    if config.reference_sensor_id ∈ config.required_sensors then base
    else base ++ [SensorState.new config.reference_sensor_id config.buffer.max_size
      config.buffer.timeout_s config.adakf DEFAULT_SENSOR_INTERVAL]
  let reference_idx :=
    if config.reference_sensor_id ∈ config.required_sensors then
      refIdxLoop config.reference_sensor_id config.required_sensors 0 0
    else base.length
  { config := config
    sensors := sensors
    reference_idx := reference_idx
    state := SyncState.idle
    frame_counter := 0
    latest_imu := none
    motion_intensity := 0
    last_sync_time := none
    quality_multiplier := 1
    accept_rate := 1 }

/-- `SyncEngine::find_or_create_sensor`. -/
def find_or_create_sensor (e : SyncEngine) (sensor_id : String) : SyncEngine × ℕ :=
  match findSensorIdx e.sensors sensor_id with
  | some idx => (e, idx)
  | none =>
    let expected_interval :=
      (lookupInterval e.config.sensor_intervals sensor_id).getD DEFAULT_SENSOR_INTERVAL
    ({ e with sensors := e.sensors ++ [SensorState.new sensor_id e.config.buffer.max_size
        e.config.buffer.timeout_s e.config.adakf expected_interval] },
     e.sensors.length)

/-- `SyncEngine::all_buffers_empty`. -/
def allBuffersEmpty : List SensorState → Bool
  | [] => true
  | s :: rest => s.buffer.items.isEmpty && allBuffersEmpty rest

/-- `SyncEngine::all_required_sensors_have_data`. -/
def requiredHaveData (sensors : List SensorState) : List String → Bool
  | [] => true
  | sid :: rest =>
    (match findSensorIdx sensors sid with
     | some idx =>
       match getSensor sensors idx with
       | some s => !s.buffer.items.isEmpty
       | none => false
     | none => false) && requiredHaveData sensors rest

/-- `SyncEngine::update_state`. -/
def update_state (e : SyncEngine) : SyncEngine :=
  if allBuffersEmpty e.sensors then { e with state := SyncState.idle }
  else if requiredHaveData e.sensors e.config.required_sensors then
    { e with state := SyncState.ready }
  else { e with state := SyncState.buffering }

/-- `SyncEngine::buffer_pressure`. -/
def buffer_pressure (e : SyncEngine) (b : SensorBuffer) : ℝ :=
  let capacity : ℝ := ((max e.config.buffer.max_size 1 : ℕ) : ℝ)
  let depth := (b.items.length : ℝ) / capacity
  let drop := (b.dropped_count : ℝ) / capacity
  let out_of_order := (b.out_of_order_count : ℝ) / capacity
  let penalty := 0.25 * (drop + out_of_order)
  fclamp (depth + penalty) 0 1

/-- `SyncEngine::average_buffer_pressure`. -/
def average_buffer_pressure (e : SyncEngine) : ℝ :=
  if e.sensors = [] then 0
  else
    let total := (e.sensors.map (fun s => e.buffer_pressure s.buffer)).sum
    fclamp (total / (e.sensors.length : ℝ)) 0 1

/-- `SyncEngine::sensor_expected_interval`. -/
def sensor_expected_interval (e : SyncEngine) (sensor_id : String) : ℝ :=
  max
    (((findSensorIdx e.sensors sensor_id).bind (fun idx =>
        (getSensor e.sensors idx).map (fun s => s.expected_interval))).getD
      DEFAULT_SENSOR_INTERVAL)
    1e-3

/-- `SyncEngine::derived_min_window_seconds`. -/
def derived_min_window_seconds (e : SyncEngine) : ℝ :=
  let max_period :=
    (e.config.required_sensors.map (fun id => e.sensor_expected_interval id)).foldl max 0
  let base := if 0 < max_period then max_period / 2 else DEFAULT_SENSOR_INTERVAL / 2
  let capped := min base (e.config.window.max_ms / 1000)
  max capped MIN_WINDOW_FLOOR_S

/-- `SyncEngine::compute_quality_score`. -/
def compute_quality_score (_e : SyncEngine) (packet : SensorPacket)
    (time_delta residual window min_window_s load_index : ℝ) : ℝ :=
  let sigma_t := max (window / 2) 1e-3
  let sigma_r := max min_window_s 1e-3
  let time_term := Real.exp (-((|time_delta| / sigma_t) ^ 2))
  let residual_term := Real.exp (-((|residual| / sigma_r) ^ 2))
  let load_term := 1 - 0.5 * fclamp load_index 0 1
  let sensor_bias : ℝ :=
    match packet.sensor_type with
    | SensorType.camera => 1
    | SensorType.lidar => 0.9
    | SensorType.imu => 0.8
    | _ => 0.95
  fclamp (time_term * residual_term * load_term * sensor_bias) 0 1

/-- `SyncEngine::quality_threshold`. -/
def quality_threshold (e : SyncEngine) (sensor_type : SensorType) : ℝ :=
  let base : ℝ :=
    match sensor_type with
    | SensorType.camera => 0.05
    | SensorType.lidar => 0.04
    | SensorType.imu => 0.02
    | _ => 0.03
  fclamp (base * e.quality_multiplier) 0.001 1

/-- `SyncEngine::update_adaptive_threshold`. -/
def update_adaptive_threshold (e : SyncEngine) (accepted total : ℕ) : SyncEngine :=
  if total = 0 then e
  else
    let target_accept : ℝ := 0.95
    let smoothing : ℝ := 0.98
    let current_rate : ℝ := (accepted : ℝ) / (total : ℝ)
    let accept_rate := smoothing * e.accept_rate + (1 - smoothing) * current_rate
    let adjustment : ℝ :=
      if accept_rate < target_accept - 0.05 then 0.995
      else if target_accept + 0.02 < accept_rate then 1.002
      else 1
    { e with
        accept_rate := accept_rate
        quality_multiplier := fclamp (e.quality_multiplier * adjustment) 0.1 2 }

/-- `SyncEngine::sensor_jitter_budget` (only feeds the jitter warning log). -/
def sensor_jitter_budget (sensor_type : SensorType) : ℝ :=
  match sensor_type with
  | SensorType.camera => 0.265
  | SensorType.lidar => 0.4
  | SensorType.imu => 0.12
  | SensorType.gnss => 0.5
  | SensorType.radar => 0.3

/-- The state effect of `SyncEngine::check_sensor_jitter`: for every emitted
sensor set `last_emit_time` to the emitted packet timestamp (the jitter-budget
comparison itself only logs and bumps a metric). -/
def checkJitterLoop (sensors : List SensorState) :
    List (String × SensorPacket) → List SensorState
  | [] => sensors
  | (sid, packet) :: rest =>
    let sensors' :=
      match findSensorIdx sensors sid with
      | some idx =>
        match getSensor sensors idx with
        | some sensor => setSensor sensors idx { sensor with last_emit_time := packet.timestamp }
        | none => sensors
      | none => sensors
    checkJitterLoop sensors' rest

/-- `SyncEngine::check_sensor_jitter` (see `checkJitterLoop`). -/
def check_sensor_jitter (e : SyncEngine) (frames : List (String × SensorPacket)) : SyncEngine :=
  { e with sensors := checkJitterLoop e.sensors frames }

/-- `SyncEngine::update_motion_from_packet`. -/
def update_motion_from_packet (e : SyncEngine) (sensor_id : String)
    (packet : SensorPacket) : SyncEngine :=
  if e.config.imu_sensor_id = some sensor_id then
    match packet.payload with
    | SensorPayload.imuData imu =>
      { e with latest_imu := some imu, motion_intensity := compute_motion_intensity imu }
    | _ => e
  else e

/-- `SyncEngine::reference_timestamp`. -/
def reference_timestamp (e : SyncEngine) : Option ℝ :=
  (getSensor e.sensors e.reference_idx).bind fun s =>
    (s.buffer.peek).map fun packet => packet.timestamp

/-- `SyncEngine::prepare_sync_context`. -/
def prepare_sync_context (e : SyncEngine) : Option SyncContext :=
  (e.reference_timestamp).map fun reference_time =>
    let fused_intensity := fuse_motion_pressure e.motion_intensity e.average_buffer_pressure
    let min_window_s := e.derived_min_window_seconds
    let window := compute_window_size fused_intensity e.config.window
    { reference_time := reference_time
      window := window
      fused_intensity := fused_intensity
      min_window_s := min_window_s }

/-- One iteration of the `collect_frames` loop body for a required sensor id;
the `estimator_dt` call is inlined on the matched sensor. -/
def processSensor (e : SyncEngine) (t_ref window min_window_s : ℝ)
    (sel : FrameSelection) (sensor_id : String) : SyncEngine × FrameSelection :=
  match findSensorIdx e.sensors sensor_id with
  | none => (e, { sel with missing_sensors := sel.missing_sensors ++ [sensor_id] })
  | some idx =>
    match getSensor e.sensors idx with
    | none => (e, { sel with missing_sensors := sel.missing_sensors ++ [sensor_id] })
    | some sensor =>
      let offset := sensor.estimator.offset
      let t_target := t_ref + offset
      match sensor.buffer.find_closest_in_window t_target window with
      | none => (e, { sel with missing_sensors := sel.missing_sensors ++ [sensor_id] })
      | some packet =>
        let time_delta := packet.timestamp - t_target
        let load_index := e.buffer_pressure sensor.buffer
        let dt0 := |t_ref - sensor.last_update_time|
        let dt := if 0 < dt0 then dt0 else sensor.expected_interval
        let upd := sensor.estimator.update time_delta dt load_index
        let time_offset := upd.2.1
        let kf_residual := upd.2.2
        let sensorUpd := { sensor with last_update_time := t_ref, estimator := upd.1 }
        let e1 := { e with sensors := setSensor e.sensors idx sensorUpd }
        let quality_score :=
          e1.compute_quality_score packet time_delta kf_residual window min_window_s load_index
        let sel' :=
          if quality_score < e1.quality_threshold packet.sensor_type then
            { sel with missing_sensors := sel.missing_sensors ++ [sensor_id] }
          else
            { sel with selected := sel.selected ++
              [{ sensor_id := sensor_id
                 packet := packet
                 time_offset := time_offset
                 kf_residual := kf_residual
                 quality_score := quality_score }] }
        (e1, sel')

/-- The `collect_frames` iteration over the declared required sensors. -/
def collectLoop (e : SyncEngine) (t_ref window min_window_s : ℝ) (sel : FrameSelection) :
    List String → SyncEngine × FrameSelection
  | [] => (e, sel)
  | sid :: rest =>
    let step := processSensor e t_ref window min_window_s sel sid
    collectLoop step.1 t_ref window min_window_s step.2 rest

/-- `SyncEngine::collect_frames`. -/
def collect_frames (e : SyncEngine) (t_ref window min_window_s : ℝ) :
    SyncEngine × FrameSelection :=
  let r := collectLoop e t_ref window min_window_s { selected := [], missing_sensors := [] }
    e.config.required_sensors
  let total := e.config.required_sensors.length
  let accepted := r.2.selected.length
  (update_adaptive_threshold r.1 accepted total, r.2)

/-- `FrameSelection::into_hashmaps` (association lists in insertion order). -/
def intoMaps (sel : FrameSelection) :
    List (String × SensorPacket) × List (String × ℝ) × List (String × ℝ) ×
      List (String × ℝ) × List String :=
  (sel.selected.map fun s => (s.sensor_id, s.packet),
   sel.selected.map fun s => (s.sensor_id, s.time_offset),
   sel.selected.map fun s => (s.sensor_id, s.kf_residual),
   sel.selected.map fun s => (s.sensor_id, s.quality_score),
   sel.missing_sensors)

/-- `SyncEngine::should_drop_for_missing`. -/
def should_drop_for_missing (e : SyncEngine) (missing_sensors : List String) : Bool :=
  match e.config.missing_strategy with
  | MissingDataStrategy.drop => !missing_sensors.isEmpty
  | MissingDataStrategy.empty => false
  | MissingDataStrategy.interpolate => false

/-- `SyncEngine::evict_consumed` (calls `update_state` like the source). -/
def evict_consumed (e : SyncEngine) (up_to : ℝ) : SyncEngine :=
  update_state { e with sensors :=
    (e.sensors.map (fun s => { s with buffer := s.buffer.remove_consumed up_to })) }

/-- `SyncEngine::aggregate_buffer_counts` (`u32` narrowing of the counters is
elided; the counts stay far below `2^32`). -/
def aggregate_buffer_counts (e : SyncEngine) : ℕ × ℕ :=
  e.sensors.foldl
    (fun acc s => (acc.1 + s.buffer.dropped_count, acc.2 + s.buffer.out_of_order_count))
    (0, 0)

/-- `SyncEngine::perform_sync`; `record_frame_metrics`'s only state effect
(setting `last_sync_time`) is applied where the source calls it. -/
def perform_sync (e : SyncEngine) (context : SyncContext) : SyncEngine × Option SyncedFrame :=
  let c := collect_frames e context.reference_time context.window context.min_window_s
  let e1 := c.1
  let selection := c.2
  if should_drop_for_missing e1 selection.missing_sensors then
    (evict_consumed e1 context.reference_time, none)
  else
    let counts := aggregate_buffer_counts e1
    let e2 := { e1 with frame_counter := e1.frame_counter + 1 }
    let maps := intoMaps selection
    let frames := maps.1
    let time_offsets := maps.2.1
    let kf_residuals := maps.2.2.1
    let missing_sensors := maps.2.2.2.2
    let e3 := { e2 with last_sync_time := some context.reference_time }
    let e4 := check_sensor_jitter e3 frames
    let sync_meta : SyncMeta :=
      { reference_sensor_id := e4.config.reference_sensor_id
        window_size := context.window
        motion_intensity := some context.fused_intensity
        time_offsets := time_offsets
        kf_residuals := kf_residuals
        missing_sensors := missing_sensors
        dropped_count := counts.1
        out_of_order_count := counts.2 }
    let e5 := evict_consumed e4 context.reference_time
    (e5, some { t_sync := context.reference_time
                frame_id := e2.frame_counter
                frames := frames
                sync_meta := sync_meta })

/-- `SyncEngine::try_sync`. -/
def try_sync (e : SyncEngine) : SyncEngine × Option SyncedFrame :=
  if e.state ≠ SyncState.ready then (e, none)
  else
    match e.prepare_sync_context with
    | none => (e, none)
    | some context => e.perform_sync context

/-- The ingestion phase of `SyncEngine::push` (motion update, sensor lookup or
creation, buffer insert, state recomputation) before the sync attempt. -/
def pushIngest (e : SyncEngine) (packet : SensorPacket) : SyncEngine :=
  let sensor_id := packet.sensor_id
  let e1 := e.update_motion_from_packet sensor_id packet
  let fc := e1.find_or_create_sensor sensor_id
  let e2 := fc.1
  let idx := fc.2
  let e3 :=
    match getSensor e2.sensors idx with
    | some sensor =>
      let sensorUpd := { sensor with buffer := sensor.buffer.push packet }
      { e2 with sensors := setSensor e2.sensors idx sensorUpd }
    | none => e2
  e3.update_state

/-- `SyncEngine::push` (ingestion phase followed by `try_sync`). -/
def push (e : SyncEngine) (packet : SensorPacket) : SyncEngine × Option SyncedFrame :=
  (pushIngest e packet).try_sync

/-- `SyncEngine::frame_count`. -/
def frame_count (e : SyncEngine) : ℕ := e.frame_counter

/-- `SyncEngine::motion_intensity()` — the public accessor (distinct from the
raw `motion_intensity` field). -/
def motionIntensity (e : SyncEngine) : ℝ :=
  fuse_motion_pressure e.motion_intensity e.average_buffer_pressure

/-- Feeding a packet sequence through repeated `push` calls, collecting the
emitted frames in order. -/
def run (e : SyncEngine) : List SensorPacket → SyncEngine × List SyncedFrame
  | [] => (e, [])
  | p :: ps =>
    let r := e.push p
    let rest := run r.1 ps
    (rest.1, r.2.toList ++ rest.2)

end SyncEngine

/-- Estimator offset currently recorded for a sensor id (0 if the sensor is
unknown); the selection target of `collect_frames` is `t_ref` plus this value. -/
def SyncEngine.offsetOf (e : SyncEngine) (sensor_id : String) : ℝ :=
  match findSensorIdx e.sensors sensor_id with
  | some idx =>
    match getSensor e.sensors idx with
    | some s => s.estimator.state0
    | none => 0
  | none => 0

/-- Fold a list of `(observation, dt, load_index)` triples through `AdaKF::update`. -/
def AdaKF.applyUpdates (kf : AdaKF) : List (ℝ × ℝ × ℝ) → AdaKF
  | [] => kf
  | u :: rest => AdaKF.applyUpdates (kf.update u.1 u.2.1 u.2.2).1 rest

/-- Packet constructor used by the concrete scenarios (payload contents do not
influence the synchronisation logic). -/
def mkPacket (sensor_id : String) (sensor_type : SensorType) (timestamp : ℝ) : SensorPacket :=
  { sensor_id := sensor_id
    sensor_type := sensor_type
    timestamp := timestamp
    frame_id := none
    payload := SensorPayload.raw }

/-- Packets currently buffered in the reference sensor slot. -/
def SyncEngine.refItems (e : SyncEngine) : List SensorPacket :=
  match getSensor e.sensors e.reference_idx with
  | some s => s.buffer.items
  | none => []

/-- Invariant carried through `AdaKF::update`: nonnegative covariance entries,
positive noise baselines, and measurement noise inside its clamp band. -/
def AdaKF.Inv (kf : AdaKF) : Prop :=
  0 ≤ kf.cov00 ∧ 0 ≤ kf.cov01 ∧ 0 ≤ kf.cov10 ∧ 0 ≤ kf.cov11 ∧
  0 < kf.base_q_offset ∧ 0 < kf.base_r ∧
  kf.base_r * 0.1 ≤ kf.r ∧ kf.r ≤ kf.base_r * 10

/-- Two-sensor Drop-policy configuration of the spec's S1 scenario (reference
`cam`, required `cam`+`lidar`, window 20–100 ms, defaults elsewhere, no IMU). -/
def dropCamLidarConfig : SyncEngineConfig :=
  { reference_sensor_id := "cam"
    required_sensors := ["cam", "lidar"]
    imu_sensor_id := none
    window := { min_ms := 20, max_ms := 100 }
    buffer := { max_size := 1000, timeout_s := 1 }
    adakf := { initial_offset := 0, process_noise := 1e-4, measurement_noise := 1e-3,
               residual_window := 20, expected_interval := none }
    missing_strategy := MissingDataStrategy.drop
    sensor_intervals := [] }

/-- Configuration whose reference sensor `ref` is not in `required_sensors`,
with a fixed 2 ms window and a -5 ms initial offset estimate for `cam`. -/
def refNotRequiredConfig : SyncEngineConfig :=
  { reference_sensor_id := "ref"
    required_sensors := ["cam"]
    imu_sensor_id := none
    window := { min_ms := 2, max_ms := 2 }
    buffer := { max_size := 1000, timeout_s := 1 }
    adakf := { initial_offset := -0.005, process_noise := 1e-4, measurement_noise := 1e-3,
               residual_window := 20, expected_interval := none }
    missing_strategy := MissingDataStrategy.drop
    sensor_intervals := [] }

/-- The single frame emitted by the `refNotRequiredConfig` scenario: `cam@0.995`
selected against reference time 1.0 with reported (post-update) offset
`-(50/20011001) ≈ -2.5e-6` and window 2 ms. -/
def fC2 : SyncedFrame :=
  { t_sync := 1
    frame_id := 1
    frames := [("cam", mkPacket "cam" SensorType.camera 0.995)]
    sync_meta :=
      { reference_sensor_id := "ref"
        window_size := 0.002
        motion_intensity := some 0.0003
        time_offsets := [("cam", -(50 / 20011001))]
        kf_residuals := [("cam", 0.005)]
        missing_sensors := []
        dropped_count := 0
        out_of_order_count := 0 } }

/-! ## General lemmas -/

theorem fclamp_mono {x y : ℝ} (lo hi : ℝ) (h : x ≤ y) : fclamp x lo hi ≤ fclamp y lo hi :=
  min_le_min (max_le_max h (le_refl lo)) (le_refl hi)

theorem fclamp_le_hi (x lo hi : ℝ) : fclamp x lo hi ≤ hi := min_le_right _ _

theorem fclamp_mem (x : ℝ) {lo hi : ℝ} (h : lo ≤ hi) :
    lo ≤ fclamp x lo hi ∧ fclamp x lo hi ≤ hi :=
  ⟨le_min (le_max_right _ _) h, min_le_right _ _⟩

theorem fclamp_eq_self {x lo hi : ℝ} (h0 : lo ≤ x) (h1 : x ≤ hi) : fclamp x lo hi = x := by
  unfold fclamp
  rw [max_eq_left h0, min_eq_left h1]

theorem keepAfter_eq_filter (t : ℝ) (l : List SensorPacket) :
    SensorBuffer.keepAfter t l = l.filter (fun p => decide (t < p.timestamp)) := by
  induction l with
  | nil => rfl
  | cons p ps ih =>
    by_cases h : t < p.timestamp
    · simp [SensorBuffer.keepAfter, h, ih]
    · simp [SensorBuffer.keepAfter, h, ih]

/-! ## C9 -/

/-- C9: for every buffer state and threshold `t`, `remove_consumed t` keeps
exactly the packets with timestamp `> t` (removing exactly those with
timestamp `≤ t`) and leaves `dropped_count`, `out_of_order_count` and the
recorded last-push timestamp unchanged, so consumption-driven eviction is
never counted as a drop. -/
theorem C9_remove_consumed_exact (b : SensorBuffer) (t : ℝ) :
    (b.remove_consumed t).items = b.items.filter (fun p => decide (t < p.timestamp)) ∧
    (∀ p : SensorPacket, p ∈ (b.remove_consumed t).items ↔ p ∈ b.items ∧ t < p.timestamp) ∧
    (b.remove_consumed t).dropped_count = b.dropped_count ∧
    (b.remove_consumed t).out_of_order_count = b.out_of_order_count ∧
    (b.remove_consumed t).last_timestamp = b.last_timestamp := by
  refine ⟨keepAfter_eq_filter t b.items, ?_, rfl, rfl, rfl⟩
  intro p
  show p ∈ SensorBuffer.keepAfter t b.items ↔ _
  rw [keepAfter_eq_filter]
  simp [List.mem_filter]

/-! ## C5 -/

/-- C5 counterexample: with `max_size = 2`, after out-of-order pushes at
timestamps 5 and 3 the buffer is full and its smallest buffered timestamp is 3;
pushing a packet at timestamp 4 evicts the packet with timestamp 5 (the oldest
*inserted* one), not the packet with the smallest timestamp, which remains. -/
theorem C5_counterexample :
    (((SensorBuffer.new 2 10).push (mkPacket "cam" SensorType.camera 5)).push
        (mkPacket "cam" SensorType.camera 3)).items.map SensorPacket.timestamp = [5, 3] ∧
    (((SensorBuffer.new 2 10).push (mkPacket "cam" SensorType.camera 5)).push
        (mkPacket "cam" SensorType.camera 3)).len =
      (((SensorBuffer.new 2 10).push (mkPacket "cam" SensorType.camera 5)).push
        (mkPacket "cam" SensorType.camera 3)).max_size ∧
    ((((SensorBuffer.new 2 10).push (mkPacket "cam" SensorType.camera 5)).push
        (mkPacket "cam" SensorType.camera 3)).push
        (mkPacket "cam" SensorType.camera 4)).items.map SensorPacket.timestamp = [3, 4] ∧
    ((((SensorBuffer.new 2 10).push (mkPacket "cam" SensorType.camera 5)).push
        (mkPacket "cam" SensorType.camera 3)).push
        (mkPacket "cam" SensorType.camera 4)).dropped_count = 1 := by
  norm_num [SensorBuffer.new, SensorBuffer.push, SensorBuffer.len, mkPacket]

/-- C5 amended: on a full buffer (`len = max_size ≥ 1`) `push` evicts exactly
the oldest *inserted* (FIFO head) packet — which is the smallest-timestamp one
only for in-order contents — increments `dropped_count` by one and leaves the
length at `max_size`. -/
theorem C5_push_full_evicts_fifo (b : SensorBuffer) (p : SensorPacket)
    (hpos : 0 < b.max_size) (hfull : b.items.length = b.max_size) :
    (b.push p).items = b.items.tail ++ [p] ∧
    (b.push p).dropped_count = b.dropped_count + 1 ∧
    (b.push p).items.length = b.max_size := by
  have hge : b.max_size ≤ b.items.length := le_of_eq hfull.symm
  have htail : b.items.tail.length = b.max_size - 1 := by
    rw [List.length_tail, hfull]
  have hlt : b.items.tail.length < b.max_size := by omega
  unfold SensorBuffer.push
  simp only [if_pos hge, if_pos hlt]
  refine ⟨by trivial, by trivial, ?_⟩
  simp only [List.length_append, List.length_cons, List.length_nil, htail]
  omega

/-- C5 witness: the amended eviction behaviour at the counterexample's buffer. -/
theorem C5_push_full_evicts_fifo_witness :
    ((((SensorBuffer.new 2 10).push (mkPacket "a" SensorType.camera 5)).push
        (mkPacket "a" SensorType.camera 3)).push (mkPacket "a" SensorType.camera 4)).items =
      (((SensorBuffer.new 2 10).push (mkPacket "a" SensorType.camera 5)).push
        (mkPacket "a" SensorType.camera 3)).items.tail ++ [mkPacket "a" SensorType.camera 4] ∧
    ((((SensorBuffer.new 2 10).push (mkPacket "a" SensorType.camera 5)).push
        (mkPacket "a" SensorType.camera 3)).push (mkPacket "a" SensorType.camera 4)).dropped_count =
      (((SensorBuffer.new 2 10).push (mkPacket "a" SensorType.camera 5)).push
        (mkPacket "a" SensorType.camera 3)).dropped_count + 1 ∧
    ((((SensorBuffer.new 2 10).push (mkPacket "a" SensorType.camera 5)).push
        (mkPacket "a" SensorType.camera 3)).push (mkPacket "a" SensorType.camera 4)).items.length =
      (((SensorBuffer.new 2 10).push (mkPacket "a" SensorType.camera 5)).push
        (mkPacket "a" SensorType.camera 3)).max_size :=
  C5_push_full_evicts_fifo _ _
    (by norm_num [SensorBuffer.new, SensorBuffer.push, mkPacket])
    (by norm_num [SensorBuffer.new, SensorBuffer.push, mkPacket])

/-! ## C8 -/

/-- C8: at fixed buffer pressure `p ∈ [0,1]`, the window size is antitone in
motion intensity: for `m1 ≤ m2` in `[0,1]` and `min_ms ≤ max_ms`, the window
computed from the fused signal at `m2` is at most the one at `m1`. -/
theorem C8_window_antitone (cfg : WindowConfig) (p m1 m2 : ℝ)
    (hcfg : cfg.min_ms ≤ cfg.max_ms) (hp0 : 0 ≤ p) (hp1 : p ≤ 1)
    (hm10 : 0 ≤ m1) (hm12 : m1 ≤ m2) (hm21 : m2 ≤ 1) :
    compute_window_size (fuse_motion_pressure m2 p) cfg ≤
      compute_window_size (fuse_motion_pressure m1 p) cfg := by
  have hfused : fuse_motion_pressure m1 p ≤ fuse_motion_pressure m2 p := by
    unfold fuse_motion_pressure
    refine fclamp_mono 0 1 ?_
    have : fclamp m1 0 1 ≤ fclamp m2 0 1 := fclamp_mono 0 1 hm12
    nlinarith [this]
  have hrange : (0 : ℝ) ≤ cfg.max_ms - cfg.min_ms := by linarith
  have hkey : fuse_motion_pressure m1 p * (cfg.max_ms - cfg.min_ms) ≤
      fuse_motion_pressure m2 p * (cfg.max_ms - cfg.min_ms) :=
    mul_le_mul_of_nonneg_right hfused hrange
  unfold compute_window_size
  rw [div_le_div_iff_of_pos_right (by norm_num : (0:ℝ) < 1000)]
  linarith

/-- C8 witness: antitonicity at the default 20–100 ms window, pressure 1/2,
intensities 0 and 1. -/
theorem C8_window_antitone_witness :
    compute_window_size (fuse_motion_pressure 1 (1/2)) { min_ms := 20, max_ms := 100 } ≤
      compute_window_size (fuse_motion_pressure 0 (1/2)) { min_ms := 20, max_ms := 100 } :=
  C8_window_antitone { min_ms := 20, max_ms := 100 } (1/2) 0 1
    (by norm_num) (by norm_num) (by norm_num) (by norm_num) (by norm_num) (by norm_num)

/-! ## C6 -/

theorem kalman_cov_step (p00 p01 p11 q r D : ℝ)
    (h00 : 0 ≤ p00) (h01 : 0 ≤ p01) (h11 : 0 ≤ p11) (hq : 0 < q) (hr : 0 < r) (hD : 0 ≤ D) :
    0 ≤ (1 - (p00 + 2 * D * p01 + D * D * p11 + q) / (p00 + 2 * D * p01 + D * D * p11 + q + r)) *
      (p01 + D * p11) := by
  have hp : 0 < p00 + 2 * D * p01 + D * D * p11 + q := by nlinarith
  have hs : 0 < p00 + 2 * D * p01 + D * D * p11 + q + r := by linarith
  have hk : (p00 + 2 * D * p01 + D * D * p11 + q) /
      (p00 + 2 * D * p01 + D * D * p11 + q + r) ≤ 1 := by
    rw [div_le_one hs]; linarith
  have hm : 0 ≤ p01 + D * p11 := by nlinarith
  exact mul_nonneg (by linarith) hm

theorem AdaKF.update_preserves_inv (kf : AdaKF) (hInv : kf.Inv)
    (observation dt load_index : ℝ) : (kf.update observation dt load_index).1.Inv := by
  obtain ⟨h00, h01, _h10, h11, hq, hb, hr1, hr2⟩ := hInv
  have hload := fclamp_mem load_index (by norm_num : (0:ℝ) ≤ 1)
  have hqpos : 0 < kf.base_q_offset * (1 + fclamp load_index 0 1) := by nlinarith
  have hr0 : 0 < kf.r := by nlinarith
  have hD0 : (0:ℝ) ≤ max (if 0 < dt then dt else kf.expected_interval) MIN_DT := by
    refine le_trans ?_ (le_max_right _ _); norm_num [MIN_DT]
  have hclampband : kf.base_r * 0.1 ≤ kf.base_r * 10 := by nlinarith
  have hband := fclamp_mem
    (kf.alpha * kf.ewma_variance + (1 - kf.alpha) * (observation - (kf.state0 +
      max (if 0 < dt then dt else kf.expected_interval) MIN_DT * kf.state1)) ^ 2)
    hclampband
  unfold AdaKF.update AdaKF.Inv
  refine ⟨le_max_right _ _, ?_, ?_, le_max_right _ _, hq, hb, ?_, ?_⟩
  · exact kalman_cov_step _ _ _ _ _ _ h00 h01 h11 hqpos hr0 hD0
  · exact kalman_cov_step _ _ _ _ _ _ h00 h01 h11 hqpos hr0 hD0
  · exact hband.1
  · exact hband.2

theorem AdaKF.new_inv (config : AdaKFConfig) : (AdaKF.new config).Inv := by
  unfold AdaKF.new AdaKF.Inv
  have hb : (0:ℝ) < max config.measurement_noise 1e-9 := by
    refine lt_of_lt_of_le ?_ (le_max_right _ _); norm_num
  have hq : (0:ℝ) < max config.process_noise 1e-9 := by
    refine lt_of_lt_of_le ?_ (le_max_right _ _); norm_num
  refine ⟨by norm_num, by norm_num, by norm_num, by norm_num, hq, hb, ?_, ?_⟩ <;> nlinarith

theorem AdaKF.applyUpdates_inv (updates : List (ℝ × ℝ × ℝ)) :
    ∀ kf : AdaKF, kf.Inv → (AdaKF.applyUpdates kf updates).Inv := by
  induction updates with
  | nil => intro kf h; exact h
  | cons u rest ih =>
    intro kf h
    exact ih _ (AdaKF.update_preserves_inv kf h u.1 u.2.1 u.2.2)

/-- C6: for every `AdaKF` created by `AdaKF::new` and every sequence of
`update(observation, dt, load_index)` calls (hence, by generality of the list,
after every update of any finite or infinite call sequence), all four
components of the 2×2 covariance matrix are nonnegative and the measurement
noise `r` stays within `[0.1 * base_r, 10 * base_r]`. -/
theorem C6_adakf_invariants (config : AdaKFConfig) (updates : List (ℝ × ℝ × ℝ)) :
    (0 ≤ (AdaKF.applyUpdates (AdaKF.new config) updates).cov00 ∧
      0 ≤ (AdaKF.applyUpdates (AdaKF.new config) updates).cov01 ∧
      0 ≤ (AdaKF.applyUpdates (AdaKF.new config) updates).cov10 ∧
      0 ≤ (AdaKF.applyUpdates (AdaKF.new config) updates).cov11) ∧
    ((AdaKF.applyUpdates (AdaKF.new config) updates).base_r * 0.1 ≤
        (AdaKF.applyUpdates (AdaKF.new config) updates).r ∧
      (AdaKF.applyUpdates (AdaKF.new config) updates).r ≤
        (AdaKF.applyUpdates (AdaKF.new config) updates).base_r * 10) := by
  have h := AdaKF.applyUpdates_inv updates (AdaKF.new config) (AdaKF.new_inv config)
  obtain ⟨h00, h01, h10, h11, _, _, hr1, hr2⟩ := h
  exact ⟨⟨h00, h01, h10, h11⟩, hr1, hr2⟩

/-! ## Structural lemmas about the sensor list -/

theorem setSensor_length (l : List SensorState) (i : ℕ) (s : SensorState) :
    (setSensor l i s).length = l.length := by
  induction l generalizing i with
  | nil => rfl
  | cons x rest ih =>
    cases i with
    | zero => rfl
    | succ n => simp [setSensor, ih]

theorem getSensor_setSensor (l : List SensorState) (i j : ℕ) (s : SensorState) :
    getSensor (setSensor l i s) j =
      if j = i ∧ i < l.length then some s else getSensor l j := by
  induction l generalizing i j with
  | nil => simp [setSensor, getSensor]
  | cons x rest ih =>
    cases i with
    | zero =>
      cases j with
      | zero => simp [setSensor, getSensor]
      | succ m => simp [setSensor, getSensor]
    | succ n =>
      cases j with
      | zero => simp [setSensor, getSensor]
      | succ m =>
        simp only [setSensor, getSensor, ih, List.length_cons]
        by_cases h : m = n ∧ n < rest.length
        · rw [if_pos h, if_pos (by omega)]
        · rw [if_neg h, if_neg (by omega)]

theorem getSensor_lt_length (l : List SensorState) (j : ℕ) (s : SensorState)
    (h : getSensor l j = some s) : j < l.length := by
  induction l generalizing j with
  | nil => simp [getSensor] at h
  | cons x rest ih =>
    cases j with
    | zero => simp
    | succ m =>
      simp only [getSensor] at h
      have := ih m h
      simp only [List.length_cons]
      omega

theorem getSensor_append_left (l l2 : List SensorState) (j : ℕ) (h : j < l.length) :
    getSensor (l ++ l2) j = getSensor l j := by
  induction l generalizing j with
  | nil => simp at h
  | cons x rest ih =>
    cases j with
    | zero => rfl
    | succ m =>
      simp only [List.cons_append, getSensor]
      exact ih m (by simpa using Nat.lt_of_succ_lt_succ h)

theorem getSensor_map (f : SensorState → SensorState) (l : List SensorState) (j : ℕ) :
    getSensor (l.map f) j = (getSensor l j).map f := by
  induction l generalizing j with
  | nil => rfl
  | cons x rest ih =>
    cases j with
    | zero => rfl
    | succ m => simpa [getSensor] using ih m

/-! ## Field-preservation lemmas for the engine operations -/

theorem update_state_spec (e : SyncEngine) :
    (e.update_state).sensors = e.sensors ∧ (e.update_state).config = e.config ∧
    (e.update_state).reference_idx = e.reference_idx ∧
    (e.update_state).frame_counter = e.frame_counter ∧
    (e.update_state).last_sync_time = e.last_sync_time ∧
    (e.update_state).motion_intensity = e.motion_intensity ∧
    (e.update_state).latest_imu = e.latest_imu ∧
    (e.update_state).quality_multiplier = e.quality_multiplier ∧
    (e.update_state).accept_rate = e.accept_rate := by
  unfold SyncEngine.update_state
  split
  · exact ⟨rfl, rfl, rfl, rfl, rfl, rfl, rfl, rfl, rfl⟩
  · split
    · exact ⟨rfl, rfl, rfl, rfl, rfl, rfl, rfl, rfl, rfl⟩
    · exact ⟨rfl, rfl, rfl, rfl, rfl, rfl, rfl, rfl, rfl⟩

theorem update_adaptive_threshold_spec (e : SyncEngine) (a t : ℕ) :
    (e.update_adaptive_threshold a t).sensors = e.sensors ∧
    (e.update_adaptive_threshold a t).config = e.config ∧
    (e.update_adaptive_threshold a t).reference_idx = e.reference_idx ∧
    (e.update_adaptive_threshold a t).frame_counter = e.frame_counter ∧
    (e.update_adaptive_threshold a t).last_sync_time = e.last_sync_time ∧
    (e.update_adaptive_threshold a t).motion_intensity = e.motion_intensity ∧
    (e.update_adaptive_threshold a t).latest_imu = e.latest_imu ∧
    (e.update_adaptive_threshold a t).state = e.state := by
  unfold SyncEngine.update_adaptive_threshold
  split
  · exact ⟨rfl, rfl, rfl, rfl, rfl, rfl, rfl, rfl⟩
  · exact ⟨rfl, rfl, rfl, rfl, rfl, rfl, rfl, rfl⟩

theorem processSensor_spec (e : SyncEngine) (t w mw : ℝ) (sel : FrameSelection) (sid : String) :
    (SyncEngine.processSensor e t w mw sel sid).1.config = e.config ∧
    (SyncEngine.processSensor e t w mw sel sid).1.reference_idx = e.reference_idx ∧
    (SyncEngine.processSensor e t w mw sel sid).1.frame_counter = e.frame_counter ∧
    (SyncEngine.processSensor e t w mw sel sid).1.last_sync_time = e.last_sync_time ∧
    (SyncEngine.processSensor e t w mw sel sid).1.motion_intensity = e.motion_intensity ∧
    (SyncEngine.processSensor e t w mw sel sid).1.latest_imu = e.latest_imu ∧
    (SyncEngine.processSensor e t w mw sel sid).1.state = e.state ∧
    (SyncEngine.processSensor e t w mw sel sid).1.quality_multiplier = e.quality_multiplier ∧
    (∀ j, (getSensor (SyncEngine.processSensor e t w mw sel sid).1.sensors j).map
        SensorState.id = (getSensor e.sensors j).map SensorState.id) ∧
    (∀ j, (getSensor (SyncEngine.processSensor e t w mw sel sid).1.sensors j).map
        SensorState.buffer = (getSensor e.sensors j).map SensorState.buffer) := by
  cases hfind : findSensorIdx e.sensors sid with
  | none =>
    simp [SyncEngine.processSensor, hfind]
  | some idx =>
    cases hget : getSensor e.sensors idx with
    | none =>
      simp [SyncEngine.processSensor, hfind, hget]
    | some sensor =>
      cases hfc : sensor.buffer.find_closest_in_window
          (t + sensor.estimator.offset) w with
      | none =>
        simp [SyncEngine.processSensor, hfind, hget, hfc]
      | some packet =>
        have hsens : ∀ (est : AdaKF) (lut : ℝ),
            (∀ j, (getSensor (setSensor e.sensors idx
                { id := sensor.id, buffer := sensor.buffer, estimator := est,
                  last_update_time := lut, last_emit_time := sensor.last_emit_time,
                  expected_interval := sensor.expected_interval }) j).map SensorState.id =
              (getSensor e.sensors j).map SensorState.id) ∧
            (∀ j, (getSensor (setSensor e.sensors idx
                { id := sensor.id, buffer := sensor.buffer, estimator := est,
                  last_update_time := lut, last_emit_time := sensor.last_emit_time,
                  expected_interval := sensor.expected_interval }) j).map SensorState.buffer =
              (getSensor e.sensors j).map SensorState.buffer) := by
          intro est lut
          constructor <;> intro j <;> rw [getSensor_setSensor] <;>
            · by_cases hj : j = idx ∧ idx < e.sensors.length
              · rw [if_pos hj, hj.1, hget]
                rfl
              · rw [if_neg hj]
        simp [SyncEngine.processSensor, hfind, hget, hfc]
        exact ⟨(hsens _ _).1, (hsens _ _).2⟩

theorem collectLoop_spec (l : List String) :
    ∀ (e : SyncEngine) (t w mw : ℝ) (sel : FrameSelection),
    (SyncEngine.collectLoop e t w mw sel l).1.config = e.config ∧
    (SyncEngine.collectLoop e t w mw sel l).1.reference_idx = e.reference_idx ∧
    (SyncEngine.collectLoop e t w mw sel l).1.frame_counter = e.frame_counter ∧
    (SyncEngine.collectLoop e t w mw sel l).1.last_sync_time = e.last_sync_time ∧
    (SyncEngine.collectLoop e t w mw sel l).1.motion_intensity = e.motion_intensity ∧
    (SyncEngine.collectLoop e t w mw sel l).1.latest_imu = e.latest_imu ∧
    (SyncEngine.collectLoop e t w mw sel l).1.state = e.state ∧
    (∀ j, (getSensor (SyncEngine.collectLoop e t w mw sel l).1.sensors j).map
        SensorState.id = (getSensor e.sensors j).map SensorState.id) ∧
    (∀ j, (getSensor (SyncEngine.collectLoop e t w mw sel l).1.sensors j).map
        SensorState.buffer = (getSensor e.sensors j).map SensorState.buffer) := by
  induction l with
  | nil =>
    intro e t w mw sel
    exact ⟨rfl, rfl, rfl, rfl, rfl, rfl, rfl, fun _ => rfl, fun _ => rfl⟩
  | cons sid rest ih =>
    intro e t w mw sel
    obtain ⟨c1, r1, f1, l1, m1, i1, s1, _q1, id1, b1⟩ := processSensor_spec e t w mw sel sid
    obtain ⟨c2, r2, f2, l2, m2, i2, s2, id2, b2⟩ :=
      ih (SyncEngine.processSensor e t w mw sel sid).1 t w mw
        (SyncEngine.processSensor e t w mw sel sid).2
    simp only [SyncEngine.collectLoop]
    exact ⟨c2.trans c1, r2.trans r1, f2.trans f1, l2.trans l1, m2.trans m1,
      i2.trans i1, s2.trans s1,
      fun j => (id2 j).trans (id1 j), fun j => (b2 j).trans (b1 j)⟩

theorem collect_frames_spec (e : SyncEngine) (t w mw : ℝ) :
    (e.collect_frames t w mw).1.config = e.config ∧
    (e.collect_frames t w mw).1.reference_idx = e.reference_idx ∧
    (e.collect_frames t w mw).1.frame_counter = e.frame_counter ∧
    (e.collect_frames t w mw).1.last_sync_time = e.last_sync_time ∧
    (e.collect_frames t w mw).1.motion_intensity = e.motion_intensity ∧
    (e.collect_frames t w mw).1.latest_imu = e.latest_imu ∧
    (e.collect_frames t w mw).1.state = e.state ∧
    (∀ j, (getSensor (e.collect_frames t w mw).1.sensors j).map SensorState.id =
        (getSensor e.sensors j).map SensorState.id) ∧
    (∀ j, (getSensor (e.collect_frames t w mw).1.sensors j).map SensorState.buffer =
        (getSensor e.sensors j).map SensorState.buffer) := by
  obtain ⟨c1, r1, f1, l1, m1, i1, s1, id1, b1⟩ :=
    collectLoop_spec e.config.required_sensors e t w mw { selected := [], missing_sensors := [] }
  obtain ⟨sa, ca, ra, fa, la, ma, ia, st⟩ :=
    update_adaptive_threshold_spec
      (SyncEngine.collectLoop e t w mw { selected := [], missing_sensors := [] }
        e.config.required_sensors).1
      (SyncEngine.collectLoop e t w mw { selected := [], missing_sensors := [] }
        e.config.required_sensors).2.selected.length
      e.config.required_sensors.length
  unfold SyncEngine.collect_frames
  refine ⟨ca.trans c1, ra.trans r1, fa.trans f1, la.trans l1, ma.trans m1,
    ia.trans i1, st.trans s1, ?_, ?_⟩
  · intro j; rw [sa]; exact id1 j
  · intro j; rw [sa]; exact b1 j

theorem getSensor_setSensor_preserves {α : Type} (f : SensorState → α)
    (sensors : List SensorState) (idx : ℕ) (sensor s' : SensorState)
    (hget : getSensor sensors idx = some sensor) (hf : f s' = f sensor) (j : ℕ) :
    (getSensor (setSensor sensors idx s') j).map f = (getSensor sensors j).map f := by
  rw [getSensor_setSensor]
  by_cases hj : j = idx ∧ idx < sensors.length
  · rw [if_pos hj, hj.1, hget]
    simp [hf]
  · rw [if_neg hj]

theorem checkJitterLoop_spec (frames : List (String × SensorPacket)) :
    ∀ sensors : List SensorState,
    (∀ j, (getSensor (SyncEngine.checkJitterLoop sensors frames) j).map SensorState.id =
        (getSensor sensors j).map SensorState.id) ∧
    (∀ j, (getSensor (SyncEngine.checkJitterLoop sensors frames) j).map SensorState.buffer =
        (getSensor sensors j).map SensorState.buffer) := by
  induction frames with
  | nil => intro sensors; exact ⟨fun _ => rfl, fun _ => rfl⟩
  | cons pr rest ih =>
    intro sensors
    obtain ⟨sid, packet⟩ := pr
    simp only [SyncEngine.checkJitterLoop]
    cases hfind : findSensorIdx sensors sid with
    | none => simpa [hfind] using ih sensors
    | some idx =>
      cases hget : getSensor sensors idx with
      | none => simpa [hfind, hget] using ih sensors
      | some sensor =>
        simp only [hfind, hget]
        have step := ih (setSensor sensors idx { sensor with last_emit_time := packet.timestamp })
        refine ⟨fun j => (step.1 j).trans ?_, fun j => (step.2 j).trans ?_⟩
        · exact getSensor_setSensor_preserves SensorState.id sensors idx sensor
            ({ sensor with last_emit_time := packet.timestamp }) hget rfl j
        · exact getSensor_setSensor_preserves SensorState.buffer sensors idx sensor
            ({ sensor with last_emit_time := packet.timestamp }) hget rfl j

theorem evict_consumed_spec (e : SyncEngine) (t : ℝ) :
    (e.evict_consumed t).config = e.config ∧
    (e.evict_consumed t).reference_idx = e.reference_idx ∧
    (e.evict_consumed t).frame_counter = e.frame_counter ∧
    (e.evict_consumed t).last_sync_time = e.last_sync_time ∧
    (e.evict_consumed t).motion_intensity = e.motion_intensity ∧
    (e.evict_consumed t).latest_imu = e.latest_imu ∧
    (∀ j, getSensor (e.evict_consumed t).sensors j =
        (getSensor e.sensors j).map
          (fun s => { s with buffer := s.buffer.remove_consumed t })) := by
  unfold SyncEngine.evict_consumed
  obtain ⟨hs, hc, hr, hf, hl, hm, hi, _, _⟩ := update_state_spec
    { e with sensors :=
        (e.sensors.map (fun s => { s with buffer := s.buffer.remove_consumed t })) }
  exact ⟨hc, hr, hf, hl, hm, hi, fun j => by rw [hs]; exact getSensor_map _ _ j⟩

theorem option_buffermod_id (o : Option SensorState) (t : ℝ) :
    ((o.map (fun s => { s with buffer := s.buffer.remove_consumed t })).map
        SensorState.id) = o.map SensorState.id := by
  cases o <;> rfl

theorem refItems_eq_of_buffers (e e' : SyncEngine) (h : e'.reference_idx = e.reference_idx)
    (hb : ∀ j, (getSensor e'.sensors j).map SensorState.buffer =
        (getSensor e.sensors j).map SensorState.buffer) :
    e'.refItems = e.refItems := by
  unfold SyncEngine.refItems
  rw [h]
  have hj := hb e.reference_idx
  cases h1 : getSensor e'.sensors e.reference_idx with
  | none =>
    cases h2 : getSensor e.sensors e.reference_idx with
    | none => rfl
    | some s => rw [h1, h2] at hj; simp at hj
  | some s =>
    cases h2 : getSensor e.sensors e.reference_idx with
    | none => rw [h1, h2] at hj; simp at hj
    | some s2 =>
      rw [h1, h2] at hj
      simp at hj
      show s.buffer.items = s2.buffer.items
      rw [hj]

theorem refItems_evict (e : SyncEngine) (t : ℝ) :
    (e.evict_consumed t).refItems = SensorBuffer.keepAfter t e.refItems := by
  obtain ⟨_, hr, _, _, _, _, hj⟩ := evict_consumed_spec e t
  unfold SyncEngine.refItems
  rw [hr, hj e.reference_idx]
  cases h2 : getSensor e.sensors e.reference_idx with
  | none => rfl
  | some s => rfl

theorem keepAfter_mem (t : ℝ) (l : List SensorPacket) (q : SensorPacket) :
    q ∈ SensorBuffer.keepAfter t l ↔ q ∈ l ∧ t < q.timestamp := by
  rw [keepAfter_eq_filter]
  simp [List.mem_filter]

theorem minByTs_mem (l : List SensorPacket) (p : SensorPacket)
    (h : SensorBuffer.minByTs l = some p) : p ∈ l := by
  cases l with
  | nil => simp [SensorBuffer.minByTs] at h
  | cons x rest =>
    simp only [SensorBuffer.minByTs, Option.some_inj] at h
    subst h
    induction rest generalizing x with
    | nil => simp [List.foldl]
    | cons y ys ih =>
      simp only [List.foldl]
      by_cases hy : y.timestamp < x.timestamp
      · rw [if_pos hy]
        have := ih y
        rcases List.mem_cons.mp this with h | h
        · simp [h]
        · simp [List.mem_cons.mpr (Or.inr h)]
      · rw [if_neg hy]
        have := ih x
        rcases List.mem_cons.mp this with h | h
        · simp [h]
        · simp [List.mem_cons.mpr (Or.inr h)]

theorem perform_sync_spec (e : SyncEngine) (ctx : SyncContext) :
    (e.perform_sync ctx).1.config = e.config ∧
    (e.perform_sync ctx).1.reference_idx = e.reference_idx ∧
    (∀ j, (getSensor (e.perform_sync ctx).1.sensors j).map SensorState.id =
        (getSensor e.sensors j).map SensorState.id) ∧
    ((e.perform_sync ctx).2 = none →
      (e.perform_sync ctx).1.frame_counter = e.frame_counter ∧
      (e.perform_sync ctx).1.last_sync_time = e.last_sync_time ∧
      (∀ q ∈ (e.perform_sync ctx).1.refItems, q ∈ e.refItems)) ∧
    (∀ f, (e.perform_sync ctx).2 = some f →
      f.t_sync = ctx.reference_time ∧
      (e.perform_sync ctx).1.frame_counter = e.frame_counter + 1 ∧
      f.frame_id = e.frame_counter + 1 ∧
      (e.perform_sync ctx).1.last_sync_time = some f.t_sync ∧
      (∀ q ∈ (e.perform_sync ctx).1.refItems, q ∈ e.refItems ∧ f.t_sync < q.timestamp)) := by
  obtain ⟨cc, cr, cf, cl, cm, ci, cs, cid, cbuf⟩ :=
    collect_frames_spec e ctx.reference_time ctx.window ctx.min_window_s
  have hrefs1 : (e.collect_frames ctx.reference_time ctx.window ctx.min_window_s).1.refItems =
      e.refItems :=
    refItems_eq_of_buffers e _ cr cbuf
  unfold SyncEngine.perform_sync
  dsimp only
  split
  · -- Drop-policy rejection: evict the consumed range, emit nothing
    obtain ⟨vc, vr, vf, vl, vm, vi, vj⟩ :=
      evict_consumed_spec (e.collect_frames ctx.reference_time ctx.window ctx.min_window_s).1
        ctx.reference_time
    refine ⟨vc.trans cc, vr.trans cr, ?_, ?_, ?_⟩
    · intro j
      rw [vj j, option_buffermod_id]
      exact cid j
    · intro _
      refine ⟨vf.trans cf, vl.trans cl, ?_⟩
      intro q hq
      rw [refItems_evict, hrefs1] at hq
      exact ((keepAfter_mem _ _ _).mp hq).1
    · intro f hf
      cases hf
  · -- Emission
    obtain ⟨jid, jbuf⟩ := checkJitterLoop_spec
      (SyncEngine.intoMaps (e.collect_frames ctx.reference_time ctx.window ctx.min_window_s).2).1
      (e.collect_frames ctx.reference_time ctx.window ctx.min_window_s).1.sensors
    obtain ⟨vc, vr, vf, vl, vm, vi, vj⟩ := evict_consumed_spec
      (SyncEngine.check_sensor_jitter
        { (e.collect_frames ctx.reference_time ctx.window ctx.min_window_s).1 with
            frame_counter :=
              (e.collect_frames ctx.reference_time ctx.window ctx.min_window_s).1.frame_counter + 1
            last_sync_time := some ctx.reference_time }
        (SyncEngine.intoMaps (e.collect_frames ctx.reference_time ctx.window ctx.min_window_s).2).1)
      ctx.reference_time
    have hrefs4 : (SyncEngine.check_sensor_jitter
        { (e.collect_frames ctx.reference_time ctx.window ctx.min_window_s).1 with
            frame_counter :=
              (e.collect_frames ctx.reference_time ctx.window ctx.min_window_s).1.frame_counter + 1
            last_sync_time := some ctx.reference_time }
        (SyncEngine.intoMaps (e.collect_frames ctx.reference_time ctx.window ctx.min_window_s).2).1).refItems =
        e.refItems := by
      refine Eq.trans ?_ hrefs1
      exact refItems_eq_of_buffers _ _ rfl jbuf
    refine ⟨vc.trans cc, vr.trans cr, ?_, ?_, ?_⟩
    · intro j
      rw [vj j, option_buffermod_id]
      exact (jid j).trans (cid j)
    · intro h
      cases h
    · intro f hf
      have hfeq := Option.some.inj hf
      subst hfeq
      refine ⟨rfl, ?_, ?_, ?_, ?_⟩
      · rw [vf]
        show (SyncEngine.check_sensor_jitter _ _).frame_counter = _
        unfold SyncEngine.check_sensor_jitter
        simp only
        rw [cf]
      · show (e.collect_frames ctx.reference_time ctx.window ctx.min_window_s).1.frame_counter + 1 =
          e.frame_counter + 1
        rw [cf]
      · rw [vl]
        rfl
      · intro q hq
        rw [refItems_evict, hrefs4] at hq
        have := (keepAfter_mem _ _ _).mp hq
        exact ⟨this.1, this.2⟩

theorem reference_timestamp_mem (e : SyncEngine) (ts : ℝ)
    (h : e.reference_timestamp = some ts) : ∃ p ∈ e.refItems, ts = p.timestamp := by
  unfold SyncEngine.reference_timestamp at h
  cases hg : getSensor e.sensors e.reference_idx with
  | none => rw [hg] at h; cases h
  | some s =>
    rw [hg] at h
    simp only [Option.some_bind] at h
    cases hp : s.buffer.peek with
    | none => rw [hp] at h; cases h
    | some p =>
      rw [hp] at h
      simp only [Option.map_some'] at h
      refine ⟨p, ?_, (Option.some.inj h).symm⟩
      unfold SyncEngine.refItems
      rw [hg]
      exact minByTs_mem _ _ hp

theorem try_sync_spec (e : SyncEngine) :
    (e.try_sync).1.config = e.config ∧
    (e.try_sync).1.reference_idx = e.reference_idx ∧
    (∀ j, (getSensor (e.try_sync).1.sensors j).map SensorState.id =
        (getSensor e.sensors j).map SensorState.id) ∧
    ((e.try_sync).2 = none →
      (e.try_sync).1.frame_counter = e.frame_counter ∧
      (e.try_sync).1.last_sync_time = e.last_sync_time ∧
      (∀ q ∈ (e.try_sync).1.refItems, q ∈ e.refItems)) ∧
    (∀ f, (e.try_sync).2 = some f →
      (∃ p ∈ e.refItems, f.t_sync = p.timestamp) ∧
      (e.try_sync).1.frame_counter = e.frame_counter + 1 ∧
      f.frame_id = e.frame_counter + 1 ∧
      (e.try_sync).1.last_sync_time = some f.t_sync ∧
      (∀ q ∈ (e.try_sync).1.refItems, q ∈ e.refItems ∧ f.t_sync < q.timestamp)) := by
  unfold SyncEngine.try_sync
  split
  · exact ⟨rfl, rfl, fun _ => rfl, fun _ => ⟨rfl, rfl, fun _ hq => hq⟩, fun f hf => by cases hf⟩
  · cases hctx : e.prepare_sync_context with
    | none =>
      simp only [hctx]
      exact ⟨by trivial, by trivial, fun _ => by trivial, fun _ => ⟨by trivial, by trivial,
        fun _ hq => hq⟩, fun f hf => by cases hf⟩
    | some ctx =>
      simp only [hctx]
      obtain ⟨pc, pr, pid, pnone, psome⟩ := perform_sync_spec e ctx
      refine ⟨pc, pr, pid, pnone, ?_⟩
      intro f hf
      obtain ⟨ht, h2, h3, h4, h5⟩ := psome f hf
      have hts : ∃ p ∈ e.refItems, ctx.reference_time = p.timestamp := by
        unfold SyncEngine.prepare_sync_context at hctx
        cases hrt : e.reference_timestamp with
        | none => rw [hrt] at hctx; cases hctx
        | some ts =>
          rw [hrt] at hctx
          simp only [Option.map_some'] at hctx
          obtain rfl := Option.some.inj hctx
          exact reference_timestamp_mem e ts hrt
      rw [ht] at h4 h5 ⊢
      exact ⟨hts, h2, h3, h4, h5⟩

theorem update_motion_spec (e : SyncEngine) (sid : String) (p : SensorPacket) :
    (e.update_motion_from_packet sid p).config = e.config ∧
    (e.update_motion_from_packet sid p).sensors = e.sensors ∧
    (e.update_motion_from_packet sid p).reference_idx = e.reference_idx ∧
    (e.update_motion_from_packet sid p).frame_counter = e.frame_counter ∧
    (e.update_motion_from_packet sid p).last_sync_time = e.last_sync_time := by
  unfold SyncEngine.update_motion_from_packet
  split
  · split <;> exact ⟨rfl, rfl, rfl, rfl, rfl⟩
  · exact ⟨rfl, rfl, rfl, rfl, rfl⟩

theorem find_or_create_spec (e : SyncEngine) (sid : String) :
    (e.find_or_create_sensor sid).1.config = e.config ∧
    (e.find_or_create_sensor sid).1.reference_idx = e.reference_idx ∧
    (e.find_or_create_sensor sid).1.frame_counter = e.frame_counter ∧
    (e.find_or_create_sensor sid).1.last_sync_time = e.last_sync_time ∧
    (e.find_or_create_sensor sid).1.motion_intensity = e.motion_intensity ∧
    e.sensors.length ≤ (e.find_or_create_sensor sid).1.sensors.length ∧
    (∀ j, j < e.sensors.length →
      getSensor (e.find_or_create_sensor sid).1.sensors j = getSensor e.sensors j) := by
  unfold SyncEngine.find_or_create_sensor
  cases hfind : findSensorIdx e.sensors sid with
  | some idx =>
    simp only [hfind]
    exact ⟨by trivial, by trivial, by trivial, by trivial, by trivial, le_refl _,
      fun _ _ => by trivial⟩
  | none =>
    simp only [hfind]
    refine ⟨by trivial, by trivial, by trivial, by trivial, by trivial, by simp, ?_⟩
    intro j hj
    exact getSensor_append_left _ _ j hj

theorem pushIngest_spec (e : SyncEngine) (p : SensorPacket) :
    (SyncEngine.pushIngest e p).config = e.config ∧
    (SyncEngine.pushIngest e p).reference_idx = e.reference_idx ∧
    (SyncEngine.pushIngest e p).frame_counter = e.frame_counter ∧
    (SyncEngine.pushIngest e p).last_sync_time = e.last_sync_time := by
  obtain ⟨mc, ms, mr, mf, ml⟩ := update_motion_spec e p.sensor_id p
  obtain ⟨fc, fr, ff, fl, fm, _, _⟩ :=
    find_or_create_spec (e.update_motion_from_packet p.sensor_id p) p.sensor_id
  unfold SyncEngine.pushIngest
  dsimp only
  cases hget : getSensor
      ((e.update_motion_from_packet p.sensor_id p).find_or_create_sensor p.sensor_id).1.sensors
      ((e.update_motion_from_packet p.sensor_id p).find_or_create_sensor p.sensor_id).2 with
  | none =>
    obtain ⟨_, uc, ur, uf, ul, _, _, _, _⟩ := update_state_spec
      ((e.update_motion_from_packet p.sensor_id p).find_or_create_sensor p.sensor_id).1
    exact ⟨(uc.trans fc).trans mc, (ur.trans fr).trans mr, (uf.trans ff).trans mf,
      (ul.trans fl).trans ml⟩
  | some sensor =>
    obtain ⟨_, uc, ur, uf, ul, _, _, _, _⟩ := update_state_spec
      { ((e.update_motion_from_packet p.sensor_id p).find_or_create_sensor p.sensor_id).1 with
          sensors := setSensor
            ((e.update_motion_from_packet p.sensor_id p).find_or_create_sensor p.sensor_id).1.sensors
            ((e.update_motion_from_packet p.sensor_id p).find_or_create_sensor p.sensor_id).2
            ({ sensor with buffer := sensor.buffer.push p }) }
    exact ⟨(uc.trans fc).trans mc, (ur.trans fr).trans mr, (uf.trans ff).trans mf,
      (ul.trans fl).trans ml⟩

theorem push_counter (e : SyncEngine) (p : SensorPacket) :
    ((e.push p).2 = none ∧ (e.push p).1.frame_counter = e.frame_counter) ∨
    (∃ f, (e.push p).2 = some f ∧ f.frame_id = e.frame_counter + 1 ∧
      (e.push p).1.frame_counter = e.frame_counter + 1) := by
  obtain ⟨ic, ir, ifc, il⟩ := pushIngest_spec e p
  obtain ⟨tc, tr, tid, tnone, tsome⟩ := try_sync_spec (SyncEngine.pushIngest e p)
  cases h2 : (SyncEngine.pushIngest e p).try_sync.2 with
  | none =>
    left
    obtain ⟨hf, _, _⟩ := tnone h2
    exact ⟨h2, hf.trans ifc⟩
  | some f =>
    right
    obtain ⟨_, hf, hid, _, _⟩ := tsome f h2
    refine ⟨f, h2, by rw [hid, ifc], ?_⟩
    show (SyncEngine.pushIngest e p).try_sync.1.frame_counter = _
    rw [hf, ifc]

theorem run_frame_ids (ps : List SensorPacket) :
    ∀ e : SyncEngine,
    ((SyncEngine.run e ps).2.map SyncedFrame.frame_id =
      List.range' (e.frame_counter + 1) (SyncEngine.run e ps).2.length) ∧
    (SyncEngine.run e ps).1.frame_counter =
      e.frame_counter + (SyncEngine.run e ps).2.length := by
  induction ps with
  | nil => intro e; exact ⟨rfl, rfl⟩
  | cons p rest ih =>
    intro e
    have ihr := ih (e.push p).1
    simp only [SyncEngine.run]
    rcases push_counter e p with ⟨hnone, hcnt⟩ | ⟨f, hsome, hid, hcnt⟩
    · rw [hnone]
      simp only [Option.toList_none, List.nil_append]
      rw [hcnt] at ihr
      exact ihr
    · rw [hsome]
      simp only [Option.toList_some, List.singleton_append, List.map_cons, List.length_cons]
      rw [hcnt] at ihr
      constructor
      · rw [List.range'_succ, hid]
        rw [ihr.1]
      · rw [ihr.2]
        omega

/-- C4: from a freshly constructed engine, the emitted frames of any push
sequence carry `frame_id` values `1, 2, 3, …` — the k-th emitted frame has
`frame_id = k`; failed sync attempts (including Drop-policy rejections) do not
consume an id. -/
theorem C4_frame_ids (cfg : SyncEngineConfig) (ps : List SensorPacket) :
    (SyncEngine.run (SyncEngine.new cfg) ps).2.map SyncedFrame.frame_id =
      List.range' 1 (SyncEngine.run (SyncEngine.new cfg) ps).2.length := by
  have h := (run_frame_ids ps (SyncEngine.new cfg)).1
  simpa [SyncEngine.new] using h

/-! ## C10 -/

theorem perform_sync_motion (e : SyncEngine) (ctx : SyncContext) :
    (e.perform_sync ctx).1.motion_intensity = e.motion_intensity := by
  obtain ⟨_, _, _, _, cm, _, _, _, _⟩ :=
    collect_frames_spec e ctx.reference_time ctx.window ctx.min_window_s
  unfold SyncEngine.perform_sync
  dsimp only
  split
  · obtain ⟨_, _, _, _, vm, _, _⟩ := evict_consumed_spec _ ctx.reference_time
    exact vm.trans cm
  · obtain ⟨_, _, _, _, vm, _, _⟩ := evict_consumed_spec _ ctx.reference_time
    exact vm.trans cm

theorem try_sync_motion (e : SyncEngine) :
    (e.try_sync).1.motion_intensity = e.motion_intensity := by
  unfold SyncEngine.try_sync
  split
  · rfl
  · cases hctx : e.prepare_sync_context with
    | none => simp [hctx]
    | some ctx =>
      simp only [hctx]
      exact perform_sync_motion e ctx

theorem update_motion_no_imu (e : SyncEngine) (sid : String) (p : SensorPacket)
    (h : e.config.imu_sensor_id ≠ some sid) :
    e.update_motion_from_packet sid p = e := by
  unfold SyncEngine.update_motion_from_packet
  rw [if_neg h]

theorem pushIngest_motion_no_imu (e : SyncEngine) (p : SensorPacket)
    (h : e.config.imu_sensor_id ≠ some p.sensor_id) :
    (SyncEngine.pushIngest e p).motion_intensity = e.motion_intensity := by
  unfold SyncEngine.pushIngest
  dsimp only
  rw [update_motion_no_imu e p.sensor_id p h]
  cases hget : getSensor (e.find_or_create_sensor p.sensor_id).1.sensors
      (e.find_or_create_sensor p.sensor_id).2 with
  | none =>
    obtain ⟨_, _, _, _, _, um, _, _, _⟩ := update_state_spec (e.find_or_create_sensor p.sensor_id).1
    exact um.trans (find_or_create_spec e p.sensor_id).2.2.2.2.1
  | some sensor =>
    obtain ⟨_, _, _, _, _, um, _, _, _⟩ := update_state_spec
      { (e.find_or_create_sensor p.sensor_id).1 with
          sensors := setSensor (e.find_or_create_sensor p.sensor_id).1.sensors
            (e.find_or_create_sensor p.sensor_id).2
            ({ sensor with buffer := sensor.buffer.push p }) }
    exact um.trans (find_or_create_spec e p.sensor_id).2.2.2.2.1

theorem push_motion_no_imu (e : SyncEngine) (p : SensorPacket)
    (h : e.config.imu_sensor_id ≠ some p.sensor_id) :
    (e.push p).1.motion_intensity = e.motion_intensity := by
  show (SyncEngine.pushIngest e p).try_sync.1.motion_intensity = _
  exact (try_sync_motion _).trans (pushIngest_motion_no_imu e p h)

theorem push_config (e : SyncEngine) (p : SensorPacket) :
    (e.push p).1.config = e.config := by
  show (SyncEngine.pushIngest e p).try_sync.1.config = _
  exact (try_sync_spec _).1.trans (pushIngest_spec e p).1

theorem run_motion_no_imu (ps : List SensorPacket) :
    ∀ e : SyncEngine, (∀ p ∈ ps, e.config.imu_sensor_id ≠ some p.sensor_id) →
    (SyncEngine.run e ps).1.motion_intensity = e.motion_intensity ∧
    (SyncEngine.run e ps).1.config = e.config := by
  induction ps with
  | nil => intro e _; exact ⟨rfl, rfl⟩
  | cons p rest ih =>
    intro e hall
    have hp : e.config.imu_sensor_id ≠ some p.sensor_id := hall p (List.mem_cons_self _ _)
    have hrest : ∀ q ∈ rest, (e.push p).1.config.imu_sensor_id ≠ some q.sensor_id := by
      intro q hq
      rw [push_config]
      exact hall q (List.mem_cons_of_mem _ hq)
    have ihr := ih (e.push p).1 hrest
    simp only [SyncEngine.run]
    exact ⟨ihr.1.trans (push_motion_no_imu e p hp),
      ihr.2.trans (push_config e p)⟩

theorem fclamp_pos01 {x : ℝ} (hx : 0 < x) : 0 < fclamp x 0 1 := by
  unfold fclamp
  rw [max_eq_left hx.le]
  exact lt_min hx zero_lt_one

set_option maxHeartbeats 1000000 in
theorem average_buffer_pressure_pos (e : SyncEngine)
    (h : ∃ s ∈ e.sensors, s.buffer.items ≠ []) : 0 < e.average_buffer_pressure := by
  obtain ⟨s, hs, hne⟩ := h
  have hsne : e.sensors ≠ [] := by
    intro h0
    rw [h0] at hs
    cases hs
  have hcap : (0:ℝ) < ((max e.config.buffer.max_size 1 : ℕ) : ℝ) := by
    have h1 : 1 ≤ max e.config.buffer.max_size 1 := le_max_right _ _
    exact_mod_cast lt_of_lt_of_le Nat.zero_lt_one h1
  have hpress_nonneg : ∀ b : SensorBuffer, 0 ≤ e.buffer_pressure b := by
    intro b
    exact (fclamp_mem _ (by norm_num : (0:ℝ) ≤ 1)).1
  have hps : 0 < e.buffer_pressure s.buffer := by
    unfold SyncEngine.buffer_pressure
    apply fclamp_pos01
    have hdepth : 0 < (s.buffer.items.length : ℝ) /
        ((max e.config.buffer.max_size 1 : ℕ) : ℝ) := by
      apply div_pos _ hcap
      exact_mod_cast List.length_pos.mpr hne
    have hpen : (0:ℝ) ≤ 0.25 * ((s.buffer.dropped_count : ℝ) /
        ((max e.config.buffer.max_size 1 : ℕ) : ℝ) + (s.buffer.out_of_order_count : ℝ) /
        ((max e.config.buffer.max_size 1 : ℕ) : ℝ)) := by positivity
    linarith
  unfold SyncEngine.average_buffer_pressure
  rw [if_neg hsne]
  apply fclamp_pos01
  have hlen : (0:ℝ) < (e.sensors.length : ℝ) := by
    exact_mod_cast List.length_pos.mpr hsne
  apply div_pos _ hlen
  have hmem : e.buffer_pressure s.buffer ∈ e.sensors.map (fun s => e.buffer_pressure s.buffer) :=
    List.mem_map.mpr ⟨s, hs, rfl⟩
  have hsum := List.single_le_sum (l := e.sensors.map (fun s => e.buffer_pressure s.buffer))
    (by
      intro x hx
      obtain ⟨s', _, rfl⟩ := List.mem_map.mp hx
      exact hpress_nonneg s'.buffer)
    _ hmem
  linarith

theorem motionIntensity_pos_of_zero_raw (e : SyncEngine) (hm : e.motion_intensity = 0)
    (hb : ∃ s ∈ e.sensors, s.buffer.items ≠ []) : 0 < e.motionIntensity := by
  have havg := average_buffer_pressure_pos e hb
  unfold SyncEngine.motionIntensity fuse_motion_pressure
  rw [hm]
  apply fclamp_pos01
  have h1 : fclamp 0 0 1 = 0 := by unfold fclamp; norm_num
  have h2 : 0 < fclamp e.average_buffer_pressure 0 1 := fclamp_pos01 havg
  rw [h1]
  nlinarith

/-- C10: the public accessor `motion_intensity()` returns the fused value
`clamp(0.7·imu_intensity + 0.3·average_buffer_pressure, 0, 1)` rather than the
raw IMU-derived field; in particular, for an engine that has never received a
packet of the configured IMU sensor, the raw field is still 0 and yet the
accessor is strictly positive whenever some sensor buffer is non-empty. -/
theorem C10_motion_intensity_accessor (cfg : SyncEngineConfig) (ps : List SensorPacket)
    (himu : ∀ p ∈ ps, cfg.imu_sensor_id ≠ some p.sensor_id)
    (hbuf : ∃ s ∈ (SyncEngine.run (SyncEngine.new cfg) ps).1.sensors, s.buffer.items ≠ []) :
    (SyncEngine.run (SyncEngine.new cfg) ps).1.motionIntensity =
      fuse_motion_pressure (SyncEngine.run (SyncEngine.new cfg) ps).1.motion_intensity
        (SyncEngine.run (SyncEngine.new cfg) ps).1.average_buffer_pressure ∧
    (SyncEngine.run (SyncEngine.new cfg) ps).1.motion_intensity = 0 ∧
    0 < (SyncEngine.run (SyncEngine.new cfg) ps).1.motionIntensity := by
  have hcfg : (SyncEngine.new cfg).config.imu_sensor_id = cfg.imu_sensor_id := rfl
  have hmono := run_motion_no_imu ps (SyncEngine.new cfg) (by
    intro p hp
    rw [hcfg]
    exact himu p hp)
  have hm0 : (SyncEngine.run (SyncEngine.new cfg) ps).1.motion_intensity = 0 := by
    rw [hmono.1]
    rfl
  exact ⟨rfl, hm0, motionIntensity_pos_of_zero_raw _ hm0 hbuf⟩

/-- C10 witness: one camera packet pushed into the two-sensor Drop
configuration leaves a non-empty camera buffer, a zero raw motion field, and a
strictly positive fused accessor value. -/
theorem C10_motion_intensity_accessor_witness :
    (SyncEngine.run (SyncEngine.new dropCamLidarConfig)
        [mkPacket "cam" SensorType.camera 0.1]).1.motionIntensity =
      fuse_motion_pressure
        (SyncEngine.run (SyncEngine.new dropCamLidarConfig)
          [mkPacket "cam" SensorType.camera 0.1]).1.motion_intensity
        (SyncEngine.run (SyncEngine.new dropCamLidarConfig)
          [mkPacket "cam" SensorType.camera 0.1]).1.average_buffer_pressure ∧
    (SyncEngine.run (SyncEngine.new dropCamLidarConfig)
        [mkPacket "cam" SensorType.camera 0.1]).1.motion_intensity = 0 ∧
    0 < (SyncEngine.run (SyncEngine.new dropCamLidarConfig)
        [mkPacket "cam" SensorType.camera 0.1]).1.motionIntensity :=
  C10_motion_intensity_accessor dropCamLidarConfig [mkPacket "cam" SensorType.camera 0.1]
    (by intro p hp; simp [dropCamLidarConfig])
    (by
      simp +decide [SyncEngine.run, SyncEngine.push, SyncEngine.pushIngest,
        SyncEngine.update_motion_from_packet, SyncEngine.find_or_create_sensor,
        SyncEngine.new, SensorState.new, SensorBuffer.new, AdaKF.new, lookupInterval,
        refIdxLoop, findSensorIdx, getSensor, setSensor, SensorBuffer.push,
        SyncEngine.update_state, SyncEngine.allBuffersEmpty, SyncEngine.requiredHaveData,
        SyncEngine.try_sync, mkPacket, dropCamLidarConfig, DEFAULT_SENSOR_INTERVAL, MIN_DT,
        List.isEmpty])

/-! ## Concrete-run evaluation helpers -/

theorem cam_ne_lidar : ("cam" = "lidar") = False := by decide

theorem lidar_ne_cam : ("lidar" = "cam") = False := by decide

theorem cam_ne_ref : ("cam" = "ref") = False := by decide

theorem ref_ne_cam : ("ref" = "cam") = False := by decide

theorem bool_false_eq_true : (false = true) = False := by simp

theorem bool_true_eq_false : (true = false) = False := by simp

theorem sync_buffering_ne_ready : (SyncState.buffering = SyncState.ready) = False := by decide

theorem sync_idle_ne_ready : (SyncState.idle = SyncState.ready) = False := by decide

theorem sync_ready_eq_ready : (SyncState.ready = SyncState.ready) = True := by decide

theorem sensors_cons_ne_nil (a : SensorState) (l : List SensorState) :
    ((a :: l) = ([] : List SensorState)) = False := by simp

/-! ## C1 -/

/-- C1 counterexample: with the S1 configuration, pushing `cam`/`lidar` at
t = 0.3 (emitting frame 1 at `t_sync = 0.3`) and then the late pair at
t = 0.25 makes the engine emit frame 2 anchored at `t_sync = 0.25 < 0.3`:
after the first emission `remove_consumed` has already run, so the late
reference packet is *not* dropped and anchors a later frame. -/
theorem C1_counterexample :
    ((SyncEngine.run (SyncEngine.new dropCamLidarConfig)
      [mkPacket "cam" SensorType.camera 0.3, mkPacket "lidar" SensorType.lidar 0.3,
       mkPacket "cam" SensorType.camera 0.25, mkPacket "lidar" SensorType.lidar 0.25]).2.map
        SyncedFrame.t_sync) = [0.3, 0.25] ∧
    ¬ List.Chain' (· ≤ ·)
      ((SyncEngine.run (SyncEngine.new dropCamLidarConfig)
        [mkPacket "cam" SensorType.camera 0.3, mkPacket "lidar" SensorType.lidar 0.3,
         mkPacket "cam" SensorType.camera 0.25, mkPacket "lidar" SensorType.lidar 0.25]).2.map
          SyncedFrame.t_sync) := by
  have h : ((SyncEngine.run (SyncEngine.new dropCamLidarConfig)
      [mkPacket "cam" SensorType.camera 0.3, mkPacket "lidar" SensorType.lidar 0.3,
       mkPacket "cam" SensorType.camera 0.25, mkPacket "lidar" SensorType.lidar 0.25]).2.map
        SyncedFrame.t_sync) = [0.3, 0.25] := by
    norm_num only [SyncEngine.run, SyncEngine.push, SyncEngine.pushIngest,
      SyncEngine.update_motion_from_packet, SyncEngine.find_or_create_sensor,
      SyncEngine.new, SensorState.new, SensorBuffer.new, AdaKF.new, AdaKF.update, AdaKF.offset,
      lookupInterval, refIdxLoop, findSensorIdx, getSensor, setSensor, SensorBuffer.push,
      SyncEngine.update_state, SyncEngine.allBuffersEmpty, SyncEngine.requiredHaveData,
      SyncEngine.try_sync, SyncEngine.prepare_sync_context, SyncEngine.reference_timestamp,
      SensorBuffer.peek, SensorBuffer.minByTs, fuse_motion_pressure,
      SyncEngine.average_buffer_pressure, SyncEngine.buffer_pressure,
      SyncEngine.derived_min_window_seconds, SyncEngine.sensor_expected_interval,
      compute_window_size, SyncEngine.perform_sync, SyncEngine.collect_frames,
      SyncEngine.collectLoop, SyncEngine.processSensor, SensorBuffer.find_closest_in_window,
      SensorBuffer.eligibleInWindow, SensorBuffer.minByDist, SyncEngine.compute_quality_score,
      SyncEngine.quality_threshold, SyncEngine.update_adaptive_threshold,
      SyncEngine.should_drop_for_missing, SyncEngine.evict_consumed,
      SensorBuffer.remove_consumed, SensorBuffer.keepAfter, SyncEngine.aggregate_buffer_counts,
      SyncEngine.intoMaps, SyncEngine.check_sensor_jitter, SyncEngine.checkJitterLoop,
      mkPacket, dropCamLidarConfig, DEFAULT_SENSOR_INTERVAL, MIN_WINDOW_FLOOR_S, MIN_DT,
      DEFAULT_ALPHA, fclamp, min_def, max_def, Real.exp_zero,
      cam_ne_lidar, lidar_ne_cam, bool_false_eq_true, bool_true_eq_false,
      sync_buffering_ne_ready, sync_idle_ne_ready, sync_ready_eq_ready, sensors_cons_ne_nil,
      List.isEmpty, List.map_cons, List.map_nil, List.length_cons, List.length_nil,
      List.sum_cons, List.sum_nil, List.foldl_cons, List.foldl_nil, List.tail_cons,
      List.cons_append, List.nil_append, List.append_nil,
      List.mem_cons, List.mem_singleton, List.not_mem_nil,
      Option.toList_some, Option.toList_none, Option.getD_some, Option.getD_none,
      Option.map_some', Option.map_none', Option.some_bind, Option.none_bind,
      if_true, if_false, ite_self, eq_self_iff_true, not_true, not_false_iff, ne_eq,
      abs_zero, abs_neg, abs_of_nonneg, mul_zero, zero_mul, add_zero, zero_add, sub_zero,
      zero_sub, mul_one, one_mul, neg_zero, neg_neg, zero_div,
      true_or, or_true, false_or, or_false, true_and, and_true, false_and, and_false,
      Bool.not_true, Bool.not_false, Bool.true_and, Bool.and_true, Bool.false_and,
      Bool.and_false, Bool.and_self, decide_eq_true_eq]
  refine ⟨h, ?_⟩
  rw [h]
  intro hchain
  have := List.chain'_cons.mp hchain
  norm_num at this

/-! ## C3 -/

theorem c3_gate_le_zero :
    (Real.exp (-(250000 / 156175009)) * Real.exp (-(4 / 625)) * (1999 / 2000) * (9 / 10) ≤
      (0:ℝ)) = False := by
  refine eq_false (not_le.mpr ?_)
  positivity

theorem c3_gate_le_one :
    (Real.exp (-(250000 / 156175009)) * Real.exp (-(4 / 625)) * (1999 / 2000) * (9 / 10) ≤
      (1:ℝ)) = True := by
  refine eq_true ?_
  have h1 : Real.exp (-(250000 / 156175009 : ℝ)) ≤ 1 := Real.exp_le_one_iff.mpr (by norm_num)
  have h2 : Real.exp (-(4 / 625 : ℝ)) ≤ 1 := Real.exp_le_one_iff.mpr (by norm_num)
  have hp1 : (0:ℝ) < Real.exp (-(250000 / 156175009 : ℝ)) := Real.exp_pos _
  have hp2 : (0:ℝ) < Real.exp (-(4 / 625 : ℝ)) := Real.exp_pos _
  nlinarith

theorem c3_gate_above_threshold :
    (Real.exp (-(250000 / 156175009)) * Real.exp (-(4 / 625)) * (1999 / 2000) * (9 / 10) <
      (1 / 25 : ℝ)) = False := by
  have h1 : (1:ℝ) - 250000 / 156175009 ≤ Real.exp (-(250000 / 156175009 : ℝ)) := by
    have := Real.add_one_le_exp (-(250000 / 156175009 : ℝ))
    linarith
  have h2 : (1:ℝ) - 4 / 625 ≤ Real.exp (-(4 / 625 : ℝ)) := by
    have := Real.add_one_le_exp (-(4 / 625 : ℝ))
    linarith
  have hp1 : (0:ℝ) < Real.exp (-(250000 / 156175009 : ℝ)) := Real.exp_pos _
  have h12 : ((1:ℝ) - 250000 / 156175009) * (1 - 4 / 625) ≤
      Real.exp (-(250000 / 156175009 : ℝ)) * Real.exp (-(4 / 625 : ℝ)) :=
    mul_le_mul h1 h2 (by norm_num) hp1.le
  refine eq_false (not_lt.mpr ?_)
  nlinarith

theorem s1_run_profile :
    ((SyncEngine.run (SyncEngine.new dropCamLidarConfig)
      [mkPacket "cam" SensorType.camera 0.1, mkPacket "lidar" SensorType.lidar 0.102,
       mkPacket "cam" SensorType.camera 0.15, mkPacket "lidar" SensorType.lidar 0.149]).2.map
        (fun f => (f.frame_id, f.t_sync, f.frames.map (fun pr => (pr.1, pr.2.timestamp))))) =
      [(1, 0.1, [("cam", 0.1), ("lidar", 0.102)])] := by
  norm_num only [SyncEngine.run, SyncEngine.push, SyncEngine.pushIngest,
    SyncEngine.update_motion_from_packet, SyncEngine.find_or_create_sensor,
    SyncEngine.new, SensorState.new, SensorBuffer.new, AdaKF.new, AdaKF.update, AdaKF.offset,
    lookupInterval, refIdxLoop, findSensorIdx, getSensor, setSensor, SensorBuffer.push,
    SyncEngine.update_state, SyncEngine.allBuffersEmpty, SyncEngine.requiredHaveData,
    SyncEngine.try_sync, SyncEngine.prepare_sync_context, SyncEngine.reference_timestamp,
    SensorBuffer.peek, SensorBuffer.minByTs, fuse_motion_pressure,
    SyncEngine.average_buffer_pressure, SyncEngine.buffer_pressure,
    SyncEngine.derived_min_window_seconds, SyncEngine.sensor_expected_interval,
    compute_window_size, SyncEngine.perform_sync, SyncEngine.collect_frames,
    SyncEngine.collectLoop, SyncEngine.processSensor, SensorBuffer.find_closest_in_window,
    SensorBuffer.eligibleInWindow, SensorBuffer.minByDist, SyncEngine.compute_quality_score,
    SyncEngine.quality_threshold, SyncEngine.update_adaptive_threshold,
    SyncEngine.should_drop_for_missing, SyncEngine.evict_consumed,
    SensorBuffer.remove_consumed, SensorBuffer.keepAfter, SyncEngine.aggregate_buffer_counts,
    SyncEngine.intoMaps, SyncEngine.check_sensor_jitter, SyncEngine.checkJitterLoop,
    mkPacket, dropCamLidarConfig, DEFAULT_SENSOR_INTERVAL, MIN_WINDOW_FLOOR_S, MIN_DT,
    DEFAULT_ALPHA, fclamp, min_def, max_def, Real.exp_zero,
    cam_ne_lidar, lidar_ne_cam, bool_false_eq_true, bool_true_eq_false,
    sync_buffering_ne_ready, sync_idle_ne_ready, sync_ready_eq_ready, sensors_cons_ne_nil,
    List.isEmpty, List.map_cons, List.map_nil, List.length_cons, List.length_nil,
    List.sum_cons, List.sum_nil, List.foldl_cons, List.foldl_nil, List.tail_cons,
    List.cons_append, List.nil_append, List.append_nil,
    List.mem_cons, List.mem_singleton, List.not_mem_nil,
    Option.toList_some, Option.toList_none, Option.getD_some, Option.getD_none,
    Option.map_some', Option.map_none', Option.some_bind, Option.none_bind,
    if_true, if_false, ite_self, eq_self_iff_true, not_true, not_false_iff, ne_eq,
    abs_zero, abs_neg, abs_of_nonneg, mul_zero, zero_mul, add_zero, zero_add, sub_zero,
    zero_sub, mul_one, one_mul, neg_zero, neg_neg, zero_div,
    true_or, or_true, false_or, or_false, true_and, and_true, false_and, and_false,
    Bool.not_true, Bool.not_false, Bool.true_and, Bool.and_true, Bool.false_and,
    Bool.and_false, Bool.and_self, decide_eq_true_eq,
    c3_gate_le_zero, c3_gate_le_one, c3_gate_above_threshold]

/-- C3 counterexample: the S1 push sequence `(cam,0.100)`, `(lidar,0.102)`,
`(cam,0.150)`, `(lidar,0.149)` under the Drop strategy emits exactly one
frame, not the claimed two: at the third push the lidar packet 0.102 falls
just outside the shifted window around `0.150 + offset ≈ 0.152`, the attempt
is dropped and `evict_consumed(0.15)` clears both buffers. -/
theorem C3_counterexample :
    (SyncEngine.run (SyncEngine.new dropCamLidarConfig)
      [mkPacket "cam" SensorType.camera 0.1, mkPacket "lidar" SensorType.lidar 0.102,
       mkPacket "cam" SensorType.camera 0.15, mkPacket "lidar" SensorType.lidar 0.149]).2.length = 1 ∧
    (SyncEngine.run (SyncEngine.new dropCamLidarConfig)
      [mkPacket "cam" SensorType.camera 0.1, mkPacket "lidar" SensorType.lidar 0.102,
       mkPacket "cam" SensorType.camera 0.15, mkPacket "lidar" SensorType.lidar 0.149]).2.length ≠ 2 := by
  have h := congrArg List.length s1_run_profile
  rw [List.length_map] at h
  simp only [List.length_cons, List.length_nil] at h
  exact ⟨h, by rw [h]; norm_num⟩

/-- C3 amended: the S1 push sequence emits exactly one frame — `frame_id 1`
with `t_sync = 0.100` containing `cam@0.100` and `lidar@0.102`; no second
frame is emitted because the third push's sync attempt rejects the buffered
lidar packet and, per Drop policy, evicts both buffers up to 0.15. -/
theorem C3_single_frame :
    ((SyncEngine.run (SyncEngine.new dropCamLidarConfig)
      [mkPacket "cam" SensorType.camera 0.1, mkPacket "lidar" SensorType.lidar 0.102,
       mkPacket "cam" SensorType.camera 0.15, mkPacket "lidar" SensorType.lidar 0.149]).2.map
        (fun f => (f.frame_id, f.t_sync, f.frames.map (fun pr => (pr.1, pr.2.timestamp))))) =
      [(1, 0.1, [("cam", 0.1), ("lidar", 0.102)])] :=
  s1_run_profile

/-! ## C2 and C7 run lemmas -/

theorem c2_gate_le_zero :
    (Real.exp (-1) * (1999 / 2000) ≤ (0:ℝ)) = False := by
  refine eq_false (not_le.mpr ?_)
  positivity

theorem c2_gate_le_one :
    (Real.exp (-1) * (1999 / 2000) ≤ (1:ℝ)) = True := by
  refine eq_true ?_
  have h1 : Real.exp (-1 : ℝ) ≤ 1 := Real.exp_le_one_iff.mpr (by norm_num)
  have hp : (0:ℝ) < Real.exp (-1 : ℝ) := Real.exp_pos _
  nlinarith

theorem c2_gate_above_threshold :
    (Real.exp (-1) * (1999 / 2000) < (1 / 20 : ℝ)) = False := by
  have h := Real.exp_neg_one_gt_d9
  refine eq_false (not_lt.mpr ?_)
  nlinarith

set_option maxHeartbeats 2000000 in
/-- Full profile of the second push in the `refNotRequiredConfig` scenario:
pushing `cam@0.995` then `ref@1.0` makes the second push emit exactly the
frame `fC2`. -/
theorem refrun_push2 :
    (((SyncEngine.new refNotRequiredConfig).push
        (mkPacket "cam" SensorType.camera 0.995)).1.push
      (mkPacket "ref" SensorType.camera 1.0)).2 = some fC2 := by
  norm_num only [SyncEngine.run, SyncEngine.push, SyncEngine.pushIngest,
    SyncEngine.update_motion_from_packet, SyncEngine.find_or_create_sensor,
    SyncEngine.new, SensorState.new, SensorBuffer.new, AdaKF.new, AdaKF.update, AdaKF.offset,
    lookupInterval, refIdxLoop, findSensorIdx, getSensor, setSensor, SensorBuffer.push,
    SyncEngine.update_state, SyncEngine.allBuffersEmpty, SyncEngine.requiredHaveData,
    SyncEngine.try_sync, SyncEngine.prepare_sync_context, SyncEngine.reference_timestamp,
    SensorBuffer.peek, SensorBuffer.minByTs, fuse_motion_pressure,
    SyncEngine.average_buffer_pressure, SyncEngine.buffer_pressure,
    SyncEngine.derived_min_window_seconds, SyncEngine.sensor_expected_interval,
    compute_window_size, SyncEngine.perform_sync, SyncEngine.collect_frames,
    SyncEngine.collectLoop, SyncEngine.processSensor, SensorBuffer.find_closest_in_window,
    SensorBuffer.eligibleInWindow, SensorBuffer.minByDist, SyncEngine.compute_quality_score,
    SyncEngine.quality_threshold, SyncEngine.update_adaptive_threshold,
    SyncEngine.should_drop_for_missing, SyncEngine.evict_consumed,
    SensorBuffer.remove_consumed, SensorBuffer.keepAfter, SyncEngine.aggregate_buffer_counts,
    SyncEngine.intoMaps, SyncEngine.check_sensor_jitter, SyncEngine.checkJitterLoop,
    mkPacket, fC2, dropCamLidarConfig, refNotRequiredConfig, DEFAULT_SENSOR_INTERVAL, MIN_WINDOW_FLOOR_S, MIN_DT,
    DEFAULT_ALPHA, fclamp, min_def, max_def, Real.exp_zero,
    cam_ne_lidar, lidar_ne_cam, cam_ne_ref, ref_ne_cam, bool_false_eq_true, bool_true_eq_false,
    sync_buffering_ne_ready, sync_idle_ne_ready, sync_ready_eq_ready, sensors_cons_ne_nil,
    List.isEmpty, List.map_cons, List.map_nil, List.length_cons, List.length_nil,
    List.sum_cons, List.sum_nil, List.foldl_cons, List.foldl_nil, List.tail_cons,
    List.cons_append, List.nil_append, List.append_nil,
    List.mem_cons, List.mem_singleton, List.not_mem_nil,
    Option.toList_some, Option.toList_none, Option.getD_some, Option.getD_none,
    Option.map_some', Option.map_none', Option.some_bind, Option.none_bind,
    if_true, if_false, ite_self, eq_self_iff_true, not_true, not_false_iff, ne_eq,
    abs_zero, abs_neg, abs_of_nonneg, mul_zero, zero_mul, add_zero, zero_add, sub_zero,
    zero_sub, mul_one, one_mul, neg_zero, neg_neg, zero_div,
    true_or, or_true, false_or, or_false, true_and, and_true, false_and, and_false,
    Bool.not_true, Bool.not_false, Bool.true_and, Bool.and_true, Bool.false_and,
    Bool.and_false, Bool.and_self, decide_eq_true_eq,
    c3_gate_le_zero, c3_gate_le_one, c3_gate_above_threshold,
    c2_gate_le_zero, c2_gate_le_one, c2_gate_above_threshold,
    SyncedFrame.mk.injEq, SyncMeta.mk.injEq, SensorPacket.mk.injEq, Prod.mk.injEq,
    Option.some.injEq, List.cons.injEq]

/-- C2 counterexample: the engine built from `refNotRequiredConfig` emits the
frame `fC2` whose `cam` packet (`ts = 0.995`) violates the containment bound
stated with the frame's own reported `time_offsets` and `window_size`:
`|0.995 - (1 + (-50/20011001))| ≈ 0.0049975 > 0.001 = window_size / 2`.
The selection used the pre-update offset `-0.005` (for which containment does
hold), but `sync_meta.time_offsets` reports the post-update estimates. -/
theorem C2_counterexample :
    (((SyncEngine.new refNotRequiredConfig).push
        (mkPacket "cam" SensorType.camera 0.995)).1.push
      (mkPacket "ref" SensorType.camera 1.0)).2 = some fC2 ∧
    ("cam", mkPacket "cam" SensorType.camera 0.995) ∈ fC2.frames ∧
    ("cam", -(50 / 20011001)) ∈ fC2.sync_meta.time_offsets ∧
    ¬ |(mkPacket "cam" SensorType.camera 0.995).timestamp -
        (fC2.t_sync + -(50 / 20011001))| ≤ fC2.sync_meta.window_size / 2 := by
  refine ⟨refrun_push2, by simp [fC2], by simp [fC2], ?_⟩
  simp only [fC2, mkPacket]
  rw [abs_le]
  norm_num

/-- C7 counterexample: with `reference_sensor_id = "ref"` absent from
`required_sensors = ["cam"]`, `SyncEngine::new` does not fail: it silently
appends a sensor state for `"ref"` and returns a fully working engine, which
goes on to emit a frame on the second push. -/
theorem C7_counterexample :
    refNotRequiredConfig.reference_sensor_id ∉ refNotRequiredConfig.required_sensors ∧
    (SyncEngine.new refNotRequiredConfig).sensors.map SensorState.id = ["cam", "ref"] ∧
    (((SyncEngine.new refNotRequiredConfig).push
        (mkPacket "cam" SensorType.camera 0.995)).1.push
      (mkPacket "ref" SensorType.camera 1.0)).2 = some fC2 := by
  refine ⟨?_, ?_, refrun_push2⟩
  · simp only [refNotRequiredConfig, List.mem_singleton, ref_ne_cam, not_false_iff]
  · simp [SyncEngine.new, refNotRequiredConfig, SensorState.new, ref_ne_cam]

/-- C7 amended: when the configured reference sensor is absent from
`required_sensors`, `SyncEngine::new` is infallible - instead of reporting an
error it appends a sensor state for the reference id after the required ones
and points `reference_idx` at it. -/
theorem C7_new_appends_reference (cfg : SyncEngineConfig)
    (h : cfg.reference_sensor_id ∉ cfg.required_sensors) :
    (SyncEngine.new cfg).sensors.map SensorState.id =
      cfg.required_sensors ++ [cfg.reference_sensor_id] ∧
    (SyncEngine.new cfg).reference_idx = cfg.required_sensors.length := by
  constructor <;>
    simp [SyncEngine.new, h, SensorState.new, List.map_map, Function.comp_def]

/-- C7 witness: the amended construction behaviour at `refNotRequiredConfig`. -/
theorem C7_new_appends_reference_witness :
    refNotRequiredConfig.reference_sensor_id ∉ refNotRequiredConfig.required_sensors ∧
    ((SyncEngine.new refNotRequiredConfig).sensors.map SensorState.id =
      refNotRequiredConfig.required_sensors ++ [refNotRequiredConfig.reference_sensor_id] ∧
    (SyncEngine.new refNotRequiredConfig).reference_idx =
      refNotRequiredConfig.required_sensors.length) := by
  have h : refNotRequiredConfig.reference_sensor_id ∉ refNotRequiredConfig.required_sensors := by
    simp only [refNotRequiredConfig, List.mem_singleton, ref_ne_cam, not_false_iff]
  exact ⟨h, C7_new_appends_reference refNotRequiredConfig h⟩

/-! ## C2 amended: window containment with pre-attempt offsets -/

theorem eligibleInWindow_mem (target half : ℝ) (l : List SensorPacket) (q : SensorPacket)
    (h : q ∈ SensorBuffer.eligibleInWindow target half l) :
    target - half ≤ q.timestamp ∧ q.timestamp ≤ target + half := by
  induction l with
  | nil => simp [SensorBuffer.eligibleInWindow] at h
  | cons x rest ih =>
    simp only [SensorBuffer.eligibleInWindow] at h
    split at h
    · rcases List.mem_cons.mp h with rfl | h'
      · assumption
      · exact ih h'
    · exact ih h

theorem minByDist_mem (target : ℝ) (l : List SensorPacket) (p : SensorPacket)
    (h : SensorBuffer.minByDist target l = some p) : p ∈ l := by
  cases l with
  | nil => simp [SensorBuffer.minByDist] at h
  | cons x rest =>
    simp only [SensorBuffer.minByDist, Option.some_inj] at h
    subst h
    induction rest generalizing x with
    | nil => simp [List.foldl]
    | cons y ys ih =>
      simp only [List.foldl]
      by_cases hy : |y.timestamp - target| < |x.timestamp - target|
      · rw [if_pos hy]
        rcases List.mem_cons.mp (ih y) with h | h
        · simp [h]
        · simp [List.mem_cons.mpr (Or.inr h)]
      · rw [if_neg hy]
        rcases List.mem_cons.mp (ih x) with h | h
        · simp [h]
        · simp [List.mem_cons.mpr (Or.inr h)]

theorem find_closest_in_window_bound (b : SensorBuffer) (target w : ℝ) (q : SensorPacket)
    (h : b.find_closest_in_window target w = some q) :
    |q.timestamp - target| ≤ w / 2 := by
  unfold SensorBuffer.find_closest_in_window at h
  have hmem := minByDist_mem target _ q h
  obtain ⟨h1, h2⟩ := eligibleInWindow_mem target (w / 2) b.items q hmem
  rw [abs_le]
  constructor <;> linarith

theorem findSensorIdx_sound (l : List SensorState) (sid : String) (idx : ℕ)
    (h : findSensorIdx l sid = some idx) :
    (getSensor l idx).map SensorState.id = some sid := by
  induction l generalizing idx with
  | nil => cases h
  | cons x rest ih =>
    by_cases hx : x.id = sid
    · simp only [findSensorIdx, if_pos hx] at h
      obtain rfl := Option.some.inj h
      simp [getSensor, hx]
    · simp only [findSensorIdx, if_neg hx] at h
      cases hfr : findSensorIdx rest sid with
      | none => rw [hfr] at h; cases h
      | some j =>
        rw [hfr] at h
        simp only [Option.map_some'] at h
        obtain rfl := Option.some.inj h
        simpa [getSensor] using ih j hfr

theorem findSensorIdx_congr (l : List SensorState) :
    ∀ (l' : List SensorState),
    l'.map SensorState.id = l.map SensorState.id → ∀ sid : String,
    findSensorIdx l' sid = findSensorIdx l sid := by
  induction l with
  | nil =>
    intro l' h sid
    cases l' with
    | nil => rfl
    | cons => simp at h
  | cons x rest ih =>
    intro l' h sid
    cases l' with
    | nil => simp at h
    | cons y rest' =>
      simp only [List.map_cons, List.cons.injEq] at h
      simp only [findSensorIdx, h.1, ih rest' h.2 sid]

theorem setSensor_map_id (l : List SensorState) :
    ∀ (idx : ℕ) (u : SensorState),
    (∀ s, getSensor l idx = some s → u.id = s.id) →
    (setSensor l idx u).map SensorState.id = l.map SensorState.id := by
  induction l with
  | nil => intro idx u _; rfl
  | cons x rest ih =>
    intro idx u h
    cases idx with
    | zero =>
      simp only [setSensor, List.map_cons]
      rw [h x rfl]
    | succ n =>
      simp only [setSensor, List.map_cons]
      rw [ih n u (fun s hs => h s hs)]

theorem offsetOf_set_ne (e : SyncEngine) (idx : ℕ) (sensor u : SensorState)
    (hget : getSensor e.sensors idx = some sensor) (sid' : String)
    (hne : sid' ≠ sensor.id) (hid : u.id = sensor.id) :
    SyncEngine.offsetOf { e with sensors := setSensor e.sensors idx u } sid' =
      e.offsetOf sid' := by
  have hmap : (setSensor e.sensors idx u).map SensorState.id =
      e.sensors.map SensorState.id := by
    refine setSensor_map_id e.sensors idx u ?_
    intro s hs
    rw [hget] at hs
    obtain rfl := Option.some.inj hs
    exact hid
  unfold SyncEngine.offsetOf
  rw [findSensorIdx_congr e.sensors _ hmap sid']
  cases hfind' : findSensorIdx e.sensors sid' with
  | none => rfl
  | some idx' =>
    have hidx' := findSensorIdx_sound e.sensors sid' idx' hfind'
    have hnei : idx' ≠ idx := by
      intro hcontra
      rw [hcontra, hget] at hidx'
      simp only [Option.map_some'] at hidx'
      exact hne (Option.some.inj hidx').symm
    dsimp only
    rw [getSensor_setSensor, if_neg (fun hc => hnei hc.1)]

theorem selected_ite_mem (c : Prop) [Decidable c] (sel : FrameSelection)
    (m : List String) (entry : SelectedSensor) (s' : SelectedSensor)
    (h : s' ∈ (if c then { sel with missing_sensors := m }
      else { sel with selected := sel.selected ++ [entry] }).selected) :
    s' ∈ sel.selected ∨ s' = entry := by
  split at h
  · exact Or.inl h
  · rcases List.mem_append.mp h with h | h
    · exact Or.inl h
    · exact Or.inr (List.mem_singleton.mp h)

theorem processSensor_selected (e : SyncEngine) (t w mw : ℝ) (sel : FrameSelection)
    (sid : String) :
    ∀ s' ∈ (SyncEngine.processSensor e t w mw sel sid).2.selected,
      s' ∈ sel.selected ∨
        (s'.sensor_id = sid ∧
          |s'.packet.timestamp - (t + e.offsetOf sid)| ≤ w / 2) := by
  intro s' hs'
  cases hfind : findSensorIdx e.sensors sid with
  | none =>
    simp only [SyncEngine.processSensor, hfind] at hs'
    exact Or.inl hs'
  | some idx =>
    cases hget : getSensor e.sensors idx with
    | none =>
      simp only [SyncEngine.processSensor, hfind, hget] at hs'
      exact Or.inl hs'
    | some sensor =>
      cases hfc : sensor.buffer.find_closest_in_window (t + sensor.estimator.offset) w with
      | none =>
        simp only [SyncEngine.processSensor, hfind, hget, hfc] at hs'
        exact Or.inl hs'
      | some packet =>
        have hoff : e.offsetOf sid = sensor.estimator.offset := by
          simp only [SyncEngine.offsetOf, hfind, hget]
          rfl
        simp only [SyncEngine.processSensor, hfind, hget, hfc] at hs'
        rcases selected_ite_mem _ sel _ _ s' hs' with h | rfl
        · exact Or.inl h
        · refine Or.inr ⟨rfl, ?_⟩
          rw [hoff]
          exact find_closest_in_window_bound _ _ _ _ hfc

theorem processSensor_offsetOf_ne (e : SyncEngine) (t w mw : ℝ) (sel : FrameSelection)
    (sid sid' : String) (hne : sid' ≠ sid) :
    (SyncEngine.processSensor e t w mw sel sid).1.offsetOf sid' = e.offsetOf sid' := by
  cases hfind : findSensorIdx e.sensors sid with
  | none => simp only [SyncEngine.processSensor, hfind]
  | some idx =>
    cases hget : getSensor e.sensors idx with
    | none => simp only [SyncEngine.processSensor, hfind, hget]
    | some sensor =>
      cases hfc : sensor.buffer.find_closest_in_window (t + sensor.estimator.offset) w with
      | none => simp only [SyncEngine.processSensor, hfind, hget, hfc]
      | some packet =>
        have hsid : sensor.id = sid := by
          have := findSensorIdx_sound e.sensors sid idx hfind
          rw [hget] at this
          simp only [Option.map_some'] at this
          exact Option.some.inj this
        simp only [SyncEngine.processSensor, hfind, hget, hfc]
        refine offsetOf_set_ne e idx sensor _ hget sid' ?_ rfl
        rw [hsid]
        exact hne

theorem collectLoop_selected_bound (E : SyncEngine) (t w mw : ℝ) :
    ∀ (sids : List String), sids.Nodup →
    ∀ (e : SyncEngine) (sel : FrameSelection),
    (∀ sid ∈ sids, e.offsetOf sid = E.offsetOf sid) →
    (∀ s' ∈ sel.selected,
      |s'.packet.timestamp - (t + E.offsetOf s'.sensor_id)| ≤ w / 2) →
    ∀ s' ∈ (SyncEngine.collectLoop e t w mw sel sids).2.selected,
      |s'.packet.timestamp - (t + E.offsetOf s'.sensor_id)| ≤ w / 2 := by
  intro sids
  induction sids with
  | nil =>
    intro _ e sel _ hsel s' hs'
    exact hsel s' hs'
  | cons sid rest ih =>
    intro hnd e sel hagree hsel s' hs'
    obtain ⟨hmem, hnd'⟩ := List.nodup_cons.mp hnd
    simp only [SyncEngine.collectLoop] at hs'
    refine ih hnd' _ _ ?_ ?_ s' hs'
    · intro sid2 hsid2
      have hne2 : sid2 ≠ sid := fun hc => hmem (hc ▸ hsid2)
      rw [processSensor_offsetOf_ne e t w mw sel sid sid2 hne2]
      exact hagree sid2 (List.mem_cons_of_mem _ hsid2)
    · intro s2 hs2
      rcases processSensor_selected e t w mw sel sid s2 hs2 with h | ⟨hid, hb⟩
      · exact hsel s2 h
      · rw [hagree sid (List.mem_cons_self _ _)] at hb
        rw [hid]
        exact hb

theorem collect_frames_selected_bound (e : SyncEngine) (t w mw : ℝ)
    (hnd : e.config.required_sensors.Nodup) :
    ∀ s' ∈ (e.collect_frames t w mw).2.selected,
      |s'.packet.timestamp - (t + e.offsetOf s'.sensor_id)| ≤ w / 2 := by
  intro s' hs'
  unfold SyncEngine.collect_frames at hs'
  dsimp only at hs'
  exact collectLoop_selected_bound e t w mw e.config.required_sensors hnd e
    { selected := [], missing_sensors := [] } (fun _ _ => rfl)
    (fun s2 hs2 => absurd hs2 (List.not_mem_nil _)) s' hs'

theorem perform_sync_containment (e : SyncEngine) (ctx : SyncContext) (f : SyncedFrame)
    (hnd : e.config.required_sensors.Nodup) (hf : (e.perform_sync ctx).2 = some f) :
    ∀ pr ∈ f.frames,
      |pr.2.timestamp - (f.t_sync + e.offsetOf pr.1)| ≤ f.sync_meta.window_size / 2 := by
  unfold SyncEngine.perform_sync at hf
  dsimp only at hf
  split at hf
  · cases hf
  · have hfeq := Option.some.inj hf
    subst hfeq
    intro pr hpr
    simp only [SyncEngine.intoMaps] at hpr
    rcases List.mem_map.mp hpr with ⟨s', hs', rfl⟩
    exact collect_frames_selected_bound e ctx.reference_time ctx.window ctx.min_window_s
      hnd s' hs'

/-- C2 amended: in every frame emitted by `SyncEngine::push` (for a config whose
required-sensor list has no duplicates), each included packet satisfies the
window bound with respect to the estimator offsets *before* the sync attempt -
the offsets actually used for packet selection - rather than the post-update
offsets reported in `sync_meta.time_offsets`. -/
theorem C2_window_containment (e : SyncEngine) (p : SensorPacket) (f : SyncedFrame)
    (hnd : e.config.required_sensors.Nodup) (hf : (e.push p).2 = some f) :
    ∀ pr ∈ f.frames,
      |pr.2.timestamp - (f.t_sync + (e.pushIngest p).offsetOf pr.1)| ≤
        f.sync_meta.window_size / 2 := by
  have hc : (e.pushIngest p).config = e.config := (pushIngest_spec e p).1
  have hf' : ((e.pushIngest p).try_sync).2 = some f := hf
  unfold SyncEngine.try_sync at hf'
  split at hf'
  · cases hf'
  · cases hctx : (e.pushIngest p).prepare_sync_context with
    | none => rw [hctx] at hf'; cases hf'
    | some ctx =>
      simp only [hctx] at hf'
      exact perform_sync_containment _ ctx f (by rw [hc]; exact hnd) hf'

/-- C2 witness: the amended containment at the `refNotRequiredConfig` emission. -/
theorem C2_window_containment_witness :
    ((((SyncEngine.new refNotRequiredConfig).push
        (mkPacket "cam" SensorType.camera 0.995)).1.config.required_sensors).Nodup ∧
      ((((SyncEngine.new refNotRequiredConfig).push
          (mkPacket "cam" SensorType.camera 0.995)).1.push
        (mkPacket "ref" SensorType.camera 1.0)).2 = some fC2)) ∧
    ∀ pr ∈ fC2.frames,
      |pr.2.timestamp - (fC2.t_sync +
        (((SyncEngine.new refNotRequiredConfig).push
            (mkPacket "cam" SensorType.camera 0.995)).1.pushIngest
          (mkPacket "ref" SensorType.camera 1.0)).offsetOf pr.1)| ≤
        fC2.sync_meta.window_size / 2 := by
  have hnd : ((((SyncEngine.new refNotRequiredConfig).push
      (mkPacket "cam" SensorType.camera 0.995)).1.config.required_sensors)).Nodup := by
    rw [push_config]
    show (["cam"] : List String).Nodup
    simp
  exact ⟨⟨hnd, refrun_push2⟩, C2_window_containment _ _ _ hnd refrun_push2⟩

/-! ## C1 amended: t_sync monotonicity under sorted arrivals -/

theorem getSensor_mem (l : List SensorState) (j : ℕ) (s : SensorState)
    (h : getSensor l j = some s) : s ∈ l := by
  induction l generalizing j with
  | nil => cases h
  | cons x rest ih =>
    cases j with
    | zero =>
      cases Option.some.inj h
      exact List.mem_cons_self _ _
    | succ m => exact List.mem_cons_of_mem _ (ih m h)

theorem getSensor_append_single (l : List SensorState) (x : SensorState) :
    ∀ j, l.length ≤ j →
    getSensor (l ++ [x]) j = if j = l.length then some x else none := by
  induction l with
  | nil =>
    intro j _
    cases j with
    | zero => simp [getSensor]
    | succ m => simp [getSensor]
  | cons y rest ih =>
    intro j hj
    cases j with
    | zero => simp at hj
    | succ m =>
      simp only [List.cons_append, getSensor, List.length_cons]
      show getSensor (rest ++ [x]) m = _
      rw [ih m (by simpa using Nat.le_of_succ_le_succ hj)]
      simp

theorem buffer_push_mem (b : SensorBuffer) (p q : SensorPacket)
    (h : q ∈ (b.push p).items) : q ∈ b.items ∨ q = p := by
  have htail : ∀ x ∈ b.items.tail, x ∈ b.items := fun x hx => List.mem_of_mem_tail hx
  simp only [SensorBuffer.push] at h
  by_cases hfull : b.max_size ≤ b.items.length
  · simp only [if_pos hfull] at h
    by_cases hlen : b.items.tail.length < b.max_size
    · simp only [if_pos hlen] at h
      rcases List.mem_append.mp h with h | h
      · exact Or.inl (htail q h)
      · exact Or.inr (List.mem_singleton.mp h)
    · simp only [if_neg hlen] at h
      exact Or.inl (htail q h)
  · simp only [if_neg hfull] at h
    by_cases hlen : b.items.length < b.max_size
    · simp only [if_pos hlen] at h
      rcases List.mem_append.mp h with h | h
      · exact Or.inl h
      · exact Or.inr (List.mem_singleton.mp h)
    · simp only [if_neg hlen] at h
      exact Or.inl h

theorem refItems_congr (e e' : SyncEngine) (hs : e'.sensors = e.sensors)
    (hr : e'.reference_idx = e.reference_idx) : e'.refItems = e.refItems := by
  unfold SyncEngine.refItems
  rw [hs, hr]

theorem new_sensors_empty (cfg : SyncEngineConfig) :
    ∀ s ∈ (SyncEngine.new cfg).sensors, s.buffer.items = [] := by
  intro s hs
  simp only [SyncEngine.new] at hs
  split at hs
  · rcases List.mem_map.mp hs with ⟨sid, _, rfl⟩
    rfl
  · rcases List.mem_append.mp hs with h | h
    · rcases List.mem_map.mp h with ⟨sid, _, rfl⟩
      rfl
    · obtain rfl := List.mem_singleton.mp h
      rfl

theorem new_refItems_nil (cfg : SyncEngineConfig) : (SyncEngine.new cfg).refItems = [] := by
  unfold SyncEngine.refItems
  cases hg : getSensor (SyncEngine.new cfg).sensors (SyncEngine.new cfg).reference_idx with
  | none => rfl
  | some s => exact new_sensors_empty cfg s (getSensor_mem _ _ _ hg)

theorem find_or_create_refItems (e : SyncEngine) (sid : String) :
    ∀ q ∈ (e.find_or_create_sensor sid).1.refItems, q ∈ e.refItems := by
  intro q hq
  unfold SyncEngine.find_or_create_sensor at hq
  cases hfind : findSensorIdx e.sensors sid with
  | some idx =>
    rw [hfind] at hq
    exact hq
  | none =>
    rw [hfind] at hq
    unfold SyncEngine.refItems at hq ⊢
    dsimp only at hq
    by_cases hlt : e.reference_idx < e.sensors.length
    · rw [getSensor_append_left _ _ _ hlt] at hq
      exact hq
    · rw [getSensor_append_single _ _ _ (le_of_not_lt hlt)] at hq
      split at hq
      next s heq =>
        split at heq
        · obtain rfl := Option.some.inj heq
          simp [SensorState.new, SensorBuffer.new] at hq
        · cases heq
      next heq =>
        cases hq

theorem engine_bufpush_refItems (e : SyncEngine) (idx : ℕ) (sensor : SensorState)
    (hget : getSensor e.sensors idx = some sensor) (p : SensorPacket) :
    ∀ q ∈ SyncEngine.refItems { e with sensors := setSensor e.sensors idx { sensor with buffer := sensor.buffer.push p } },
      q ∈ e.refItems ∨ q = p := by
  intro q hq
  unfold SyncEngine.refItems at hq ⊢
  dsimp only at hq
  rw [getSensor_setSensor] at hq
  by_cases hcond : e.reference_idx = idx ∧ idx < e.sensors.length
  · rw [if_pos hcond] at hq
    rcases buffer_push_mem _ _ _ hq with h | h
    · rw [hcond.1, hget]
      exact Or.inl h
    · exact Or.inr h
  · rw [if_neg hcond] at hq
    exact Or.inl hq

theorem pushIngest_refItems (e : SyncEngine) (p : SensorPacket) :
    ∀ q ∈ (e.pushIngest p).refItems, q ∈ e.refItems ∨ q = p := by
  intro q hq
  have hus : ∀ x : SyncEngine, x.update_state.refItems = x.refItems := fun x =>
    refItems_congr x x.update_state (update_state_spec x).1 (update_state_spec x).2.2.1
  have hmo : (e.update_motion_from_packet p.sensor_id p).refItems = e.refItems :=
    refItems_congr _ _ (update_motion_spec e p.sensor_id p).2.1
      (update_motion_spec e p.sensor_id p).2.2.1
  unfold SyncEngine.pushIngest at hq
  dsimp only at hq
  rw [hus] at hq
  cases hg : getSensor
      ((e.update_motion_from_packet p.sensor_id p).find_or_create_sensor p.sensor_id).1.sensors
      ((e.update_motion_from_packet p.sensor_id p).find_or_create_sensor p.sensor_id).2 with
  | none =>
    rw [hg] at hq
    have h2 := find_or_create_refItems (e.update_motion_from_packet p.sensor_id p)
      p.sensor_id q hq
    rw [hmo] at h2
    exact Or.inl h2
  | some sensor =>
    rw [hg] at hq
    rcases engine_bufpush_refItems _ _ _ hg p q hq with h | h
    · have h2 := find_or_create_refItems (e.update_motion_from_packet p.sensor_id p)
        p.sensor_id q h
      rw [hmo] at h2
      exact Or.inl h2
    · exact Or.inr h

theorem run_tsync_mono (ps : List SensorPacket) :
    ∀ e : SyncEngine,
    ps.Pairwise (fun a b => a.timestamp ≤ b.timestamp) →
    (∀ T, e.last_sync_time = some T → ∀ q ∈ e.refItems, T ≤ q.timestamp) →
    (∀ T, e.last_sync_time = some T → ∀ r ∈ ps, T ≤ r.timestamp) →
    (∀ q ∈ e.refItems, ∀ r ∈ ps, q.timestamp ≤ r.timestamp) →
    List.Chain' (· ≤ ·) ((SyncEngine.run e ps).2.map SyncedFrame.t_sync) ∧
    (∀ T, e.last_sync_time = some T → ∀ f ∈ (SyncEngine.run e ps).2, T ≤ f.t_sync) := by
  induction ps with
  | nil =>
    intro e _ _ _ _
    exact ⟨List.chain'_nil, fun T _ f hf => absurd hf (List.not_mem_nil f)⟩
  | cons p rest ih =>
    intro e hpw ha hb hc
    obtain ⟨hp_rest, hpw'⟩ := List.pairwise_cons.mp hpw
    have hEl : (e.pushIngest p).last_sync_time = e.last_sync_time := (pushIngest_spec e p).2.2.2
    have hEref := pushIngest_refItems e p
    obtain ⟨tc, tr, tid, tnone, tsome⟩ := try_sync_spec (e.pushIngest p)
    have hrun : (SyncEngine.run e (p :: rest)).2 =
        ((e.pushIngest p).try_sync).2.toList ++
          (SyncEngine.run ((e.pushIngest p).try_sync).1 rest).2 := rfl
    cases hr2 : ((e.pushIngest p).try_sync).2 with
    | none =>
      obtain ⟨hfc', hl', hsub⟩ := tnone hr2
      have hlast : ∀ T, ((e.pushIngest p).try_sync).1.last_sync_time = some T →
          e.last_sync_time = some T := by
        intro T hT
        rw [← hEl, ← hl']
        exact hT
      obtain ⟨ihchain, ihbound⟩ := ih ((e.pushIngest p).try_sync).1 hpw'
        (by
          intro T hT q hq
          rcases hEref q (hsub q hq) with h | rfl
          · exact ha T (hlast T hT) q h
          · exact hb T (hlast T hT) q (List.mem_cons_self _ _))
        (by
          intro T hT r hr
          exact hb T (hlast T hT) r (List.mem_cons_of_mem _ hr))
        (by
          intro q hq r hr
          rcases hEref q (hsub q hq) with h | rfl
          · exact hc q h r (List.mem_cons_of_mem _ hr)
          · exact hp_rest r hr)
      rw [hrun, hr2]
      simp only [Option.toList_none, List.nil_append]
      refine ⟨ihchain, ?_⟩
      intro T hT f' hf'
      exact ihbound T ((hl'.trans hEl).trans hT) f' hf'
    | some f =>
      obtain ⟨⟨q0, hq0, hq0ts⟩, hfc', hfid, hl', hsurv⟩ := tsome f hr2
      have hTf : ∀ T, e.last_sync_time = some T → T ≤ f.t_sync := by
        intro T hT
        rw [hq0ts]
        rcases hEref q0 hq0 with h | rfl
        · exact ha T hT q0 h
        · exact hb T hT q0 (List.mem_cons_self _ _)
      obtain ⟨ihchain, ihbound⟩ := ih ((e.pushIngest p).try_sync).1 hpw'
        (by
          intro T hT q hq
          rw [hl'] at hT
          obtain rfl := Option.some.inj hT
          exact (hsurv q hq).2.le)
        (by
          intro T hT r hr
          rw [hl'] at hT
          obtain rfl := Option.some.inj hT
          rw [hq0ts]
          rcases hEref q0 hq0 with h | rfl
          · exact hc q0 h r (List.mem_cons_of_mem _ hr)
          · exact hp_rest r hr)
        (by
          intro q hq r hr
          rcases hEref q (hsurv q hq).1 with h | rfl
          · exact hc q h r (List.mem_cons_of_mem _ hr)
          · exact hp_rest r hr)
      rw [hrun, hr2]
      simp only [Option.toList_some, List.singleton_append, List.map_cons]
      refine ⟨?_, ?_⟩
      · rw [List.chain'_cons']
        refine ⟨?_, ihchain⟩
        intro b hb2
        have hmem := List.mem_of_mem_head? hb2
        rcases List.mem_map.mp hmem with ⟨f', hf', rfl⟩
        exact ihbound f.t_sync hl' f' hf'
      · intro T hT f' hf'
        rcases List.mem_cons.mp hf' with rfl | hf'
        · exact hTf T hT
        · exact (hTf T hT).trans (ihbound f.t_sync hl' f' hf')

/-- C1 amended: for a freshly constructed engine, the emitted `t_sync` values
are non-decreasing provided the pushed packets arrive with non-decreasing
timestamps. (Without that proviso the property fails: a late reference packet
is re-buffered after `remove_consumed` has run and can anchor a later frame at
an earlier `t_sync`.) -/
theorem C1_tsync_monotone (cfg : SyncEngineConfig) (ps : List SensorPacket)
    (hps : ps.Pairwise (fun a b => a.timestamp ≤ b.timestamp)) :
    List.Chain' (· ≤ ·)
      ((SyncEngine.run (SyncEngine.new cfg) ps).2.map SyncedFrame.t_sync) := by
  refine (run_tsync_mono ps (SyncEngine.new cfg) hps ?_ ?_ ?_).1
  · intro T hT q hq
    rw [new_refItems_nil] at hq
    cases hq
  · intro T hT
    have hnone : (none : Option ℝ) = some T := hT
    cases hnone
  · intro q hq
    rw [new_refItems_nil] at hq
    cases hq

/-- C1 witness: the amended monotonicity at a concrete sorted push sequence. -/
theorem C1_tsync_monotone_witness :
    ([mkPacket "cam" SensorType.camera 0.1].Pairwise
      (fun a b => a.timestamp ≤ b.timestamp)) ∧
    List.Chain' (· ≤ ·)
      ((SyncEngine.run (SyncEngine.new dropCamLidarConfig)
        [mkPacket "cam" SensorType.camera 0.1]).2.map SyncedFrame.t_sync) :=
  ⟨by simp, C1_tsync_monotone dropCamLidarConfig _ (by simp)⟩
